import Mathlib

/-!
Verification of the Voice Session Bridge of the beewise-elysia service.

The definitions below are a shallow embedding, translated from the
TypeScript source, of: the Audio Relay Queue (`createAudioQueue` and the
audio loop inside `createInputStream` in the voice-chat stream service),
the Nova Sonic input-event sequence (`createInitEvents` /
`createInputStream`), the quota ledger and session tables (trial /
free-anonymous / account / paid voice), the session token services, the
WebSocket open / message / close handlers of the voice stream endpoints,
and the JSON handling of the inbound message handler.
-/

namespace VoiceBridge

/-! ## Audio Relay Queue

`createAudioQueue` in the stream service builds a closure-captured
`state = { chunks, closed, resolve }` and returns `{ ...state, push, close }`.
The spread copies `closed` and `resolve` by value: the returned object's
fields are snapshots taken at creation, while the `push` / `close`
closures mutate the captured `state`; only `chunks` (an array, copied by
reference) stays shared.  The consumer loop in `createInputStream` reads
the returned object's `closed` and stores its wakeup resolver in the
returned object's `resolve` — which `push` / `close` never read (they
check `state.resolve`, which stays null).  The embedding keeps both sides
of this aliasing. -/

/-- The queue as the consumer and the closures see it:
`stateChunks` is `state.chunks`, the array shared by reference between the
closures and the returned object; `stateClosed` is `state.closed`,
mutated by `close()` and read by `push`; `handleClosed` is the
spread-copied `closed` snapshot on the returned object, the one the
consumer loop reads — nothing ever writes it again.  `state.resolve` is
never set to a non-null value by any code path (the consumer stores its
resolver on the returned object's `resolve`, which `push` / `close` never
read), so neither `resolve` field carries information and both are
omitted. -/
structure AudioQueueHandle (α : Type) where
  stateChunks : List α
  stateClosed : Bool
  handleClosed : Bool
deriving Repr, DecidableEq

/-- Embeds `createAudioQueue()`: fresh empty open state; the spread takes
the snapshot `closed = false`. -/
def createAudioQueue {α : Type} : AudioQueueHandle α :=
  { stateChunks := [], stateClosed := false, handleClosed := false }

/-- Embeds the `push(base64Audio)` closure: `if (state.closed) return;`
then append to the shared `state.chunks`; the wakeup check reads
`state.resolve`, which is always null, so no suspended consumer is
resumed. -/
def AudioQueueHandle.push {α : Type} (q : AudioQueueHandle α) (c : α) :
    AudioQueueHandle α :=
  if q.stateClosed then q
  else { q with stateChunks := q.stateChunks ++ [c] }

/-- Embeds the `close()` closure: sets `state.closed` — not the
spread-copied snapshot the consumer loop reads — and its wakeup check also
reads the always-null `state.resolve`. -/
def AudioQueueHandle.close {α : Type} (q : AudioQueueHandle α) :
    AudioQueueHandle α :=
  { q with stateClosed := true }

/-- A producer action performed by the inbound-message / disconnect
handlers on the queue object. -/
inductive QueueOp (α : Type) where
  | push (chunk : α)
  | close
deriving Repr, DecidableEq

def applyQueueOp {α : Type} (q : AudioQueueHandle α) : QueueOp α → AudioQueueHandle α
  | .push c => q.push c
  | .close => q.close

/-- Outcome of one run of the audio loop in `createInputStream`. -/
inductive RelayOutcome (α : Type) where
  | finished (yielded : List α)
  | starved (yielded : List α)
  | outOfFuel
deriving Repr, DecidableEq

/-- The audio loop of `createInputStream`, run against an interleaved
producer.  `prod` is the list of producer actions still to happen, `sched`
decides who moves when both could, `out` accumulates the chunks the
iterator has yielded.

Loop body from the source: if the shared `chunks` is non-empty, shift and
yield; else if the object's `closed` snapshot is set, break (`finished`,
after which the iterator would emit the close-event sequence); else
suspend on a promise whose resolver is stored in the object's `resolve`
field — which `push` / `close` never call, so a suspended consumer is
never resumed (`starved`). -/
def audioLoopRun {α : Type} :
    Nat → List Bool → List (QueueOp α) → AudioQueueHandle α → List α → RelayOutcome α
  | 0, _, _, _, _ => .outOfFuel
  | fuel+1, sched, prod, q, out =>
    match q.stateChunks with
    | c :: rest =>
      match prod with
      | [] => audioLoopRun fuel sched [] { q with stateChunks := rest } (out ++ [c])
      | p :: ps =>
        match sched with
        | true :: s => audioLoopRun fuel s ps (applyQueueOp q p) out
        | false :: s =>
          audioLoopRun fuel s prod { q with stateChunks := rest } (out ++ [c])
        | [] =>
          audioLoopRun fuel [] prod { q with stateChunks := rest } (out ++ [c])
    | [] =>
      if q.handleClosed then .finished out
      else
        match prod with
        | [] => .starved out
        | p :: ps =>
          match sched with
          | true :: s => audioLoopRun fuel s ps (applyQueueOp q p) out
          | false :: _ => .starved out
          | [] => .starved out

/-- Chunks a producer trace actually enqueues: pushes made while
`state.closed` is still false (pushes after `close` are dropped by
`push`). -/
def effectivePushes {α : Type} : List (QueueOp α) → Bool → List α
  | [], _ => []
  | .push c :: rest, false => c :: effectivePushes rest false
  | .push _ :: rest, true => effectivePushes rest true
  | .close :: rest, _ => effectivePushes rest true

theorem effectivePushes_closed {α : Type} (ops : List (QueueOp α)) :
    effectivePushes ops true = [] := by
  induction ops with
  | nil => rfl
  | cons p rest ih => cases p <;> simpa [effectivePushes] using ih

theorem effectivePushes_pushes_then_close {α : Type} (chunks : List α) :
    effectivePushes (chunks.map QueueOp.push ++ [QueueOp.close]) false = chunks := by
  induction chunks with
  | nil => rfl
  | cons c rest ih => simpa [effectivePushes] using ih

theorem applyQueueOp_handleClosed {α : Type} (q : AudioQueueHandle α) (p : QueueOp α) :
    (applyQueueOp q p).handleClosed = q.handleClosed := by
  cases p with
  | push c =>
    simp only [applyQueueOp, AudioQueueHandle.push]
    split <;> rfl
  | close => rfl

/-- The loop exit is unreachable: break needs the object's `closed`
snapshot, which no operation ever sets, so from a queue whose snapshot is
false the audio loop can never finish. -/
theorem audioLoopRun_ne_finished {α : Type} (fuel : Nat) :
    ∀ (sched : List Bool) (prod : List (QueueOp α)) (q : AudioQueueHandle α)
      (out ys : List α),
      q.handleClosed = false →
      audioLoopRun fuel sched prod q out ≠ .finished ys := by
  induction fuel with
  | zero =>
    intro sched prod q out ys hq
    simp [audioLoopRun]
  | succ fuel ih =>
    intro sched prod q out ys hq h
    obtain ⟨chunks, closed, hclosed⟩ := q
    simp only at hq
    subst hq
    match chunks, prod with
    | c :: rest, [] =>
      rw [audioLoopRun] at h; dsimp only at h
      exact ih sched [] _ (out ++ [c]) ys rfl h
    | c :: rest, p :: ps =>
      match sched with
      | true :: s =>
        rw [audioLoopRun] at h; dsimp only at h
        exact ih s ps _ out ys (by rw [applyQueueOp_handleClosed]) h
      | false :: s =>
        rw [audioLoopRun] at h; dsimp only at h
        exact ih s (p :: ps) _ (out ++ [c]) ys rfl h
      | [] =>
        rw [audioLoopRun] at h; dsimp only at h
        exact ih [] (p :: ps) _ (out ++ [c]) ys rfl h
    | [], prodOps =>
      match prodOps with
      | [] =>
        rw [audioLoopRun] at h; dsimp only at h
        simp at h
      | p :: ps =>
        match sched with
        | true :: s =>
          rw [audioLoopRun] at h; dsimp only at h
          simp only [Bool.false_eq_true, if_false] at h
          exact ih s ps _ out ys (by rw [applyQueueOp_handleClosed]) h
        | false :: s =>
          rw [audioLoopRun] at h; dsimp only at h
          simp at h
        | [] =>
          rw [audioLoopRun] at h; dsimp only at h
          simp at h

/-- With fuel above the measure of the trace, the machine does not run
out of fuel. -/
theorem audioLoopRun_ne_outOfFuel {α : Type} (fuel : Nat) :
    ∀ (sched : List Bool) (prod : List (QueueOp α)) (q : AudioQueueHandle α)
      (out : List α),
      2 * prod.length + q.stateChunks.length < fuel →
      audioLoopRun fuel sched prod q out ≠ .outOfFuel := by
  induction fuel with
  | zero =>
    intro sched prod q out hlt
    exact absurd hlt (by omega)
  | succ fuel ih =>
    intro sched prod q out hlt h
    obtain ⟨chunks, closed, hclosed⟩ := q
    match chunks, prod with
    | c :: rest, [] =>
      rw [audioLoopRun] at h; dsimp only at h
      exact ih sched [] _ (out ++ [c]) (by simp at hlt ⊢; omega) h
    | c :: rest, p :: ps =>
      match sched with
      | true :: s =>
        rw [audioLoopRun] at h; dsimp only at h
        refine ih s ps _ out ?_ h
        cases p with
        | push a =>
          simp only [applyQueueOp, AudioQueueHandle.push]
          split <;> simp at hlt ⊢ <;> omega
        | close =>
          simp only [applyQueueOp, AudioQueueHandle.close]
          simp at hlt ⊢
          omega
      | false :: s =>
        rw [audioLoopRun] at h; dsimp only at h
        exact ih s (p :: ps) _ (out ++ [c]) (by simp at hlt ⊢; omega) h
      | [] =>
        rw [audioLoopRun] at h; dsimp only at h
        exact ih [] (p :: ps) _ (out ++ [c]) (by simp at hlt ⊢; omega) h
    | [], prodOps =>
      match prodOps with
      | [] =>
        rw [audioLoopRun] at h; dsimp only at h
        cases hclosed <;> simp at h
      | p :: ps =>
        match sched with
        | true :: s =>
          rw [audioLoopRun] at h; dsimp only at h
          cases hclosed with
          | true => simp at h
          | false =>
            simp only [Bool.false_eq_true, if_false] at h
            refine ih s ps _ out ?_ h
            cases p with
            | push a =>
              simp only [applyQueueOp, AudioQueueHandle.push]
              split <;> simp at hlt ⊢ <;> omega
            | close =>
              simp only [applyQueueOp, AudioQueueHandle.close]
              simp at hlt ⊢
              omega
        | false :: s =>
          rw [audioLoopRun] at h; dsimp only at h
          cases hclosed <;> simp at h
        | [] =>
          rw [audioLoopRun] at h; dsimp only at h
          cases hclosed <;> simp at h

/-- When the consumer ends starved, what it yielded is a prefix of the
enqueued sequence, in order: the yielded list plus what is still buffered
or would still be pushed equals the whole enqueued sequence. -/
theorem audioLoopRun_starved_eq {α : Type} (fuel : Nat) :
    ∀ (sched : List Bool) (prod : List (QueueOp α)) (q : AudioQueueHandle α)
      (out ys : List α),
      audioLoopRun fuel sched prod q out = .starved ys →
      ∃ rest, ys ++ rest = out ++ q.stateChunks ++ effectivePushes prod q.stateClosed := by
  induction fuel with
  | zero =>
    intro sched prod q out ys h
    simp [audioLoopRun] at h
  | succ fuel ih =>
    intro sched prod q out ys h
    obtain ⟨chunks, closed, hclosed⟩ := q
    match chunks, prod with
    | c :: rest, [] =>
      rw [audioLoopRun] at h; dsimp only at h
      obtain ⟨r2, hr2⟩ := ih sched [] _ (out ++ [c]) ys h
      refine ⟨r2, ?_⟩
      rw [hr2]
      simp
    | c :: rest, p :: ps =>
      match sched with
      | true :: s =>
        rw [audioLoopRun] at h; dsimp only at h
        cases p with
        | push a =>
          cases hcl : closed with
          | true =>
            rw [hcl, show applyQueueOp ⟨c :: rest, true, hclosed⟩ (QueueOp.push a) =
                ⟨c :: rest, true, hclosed⟩ from by
              simp [applyQueueOp, AudioQueueHandle.push]] at h
            obtain ⟨r2, hr2⟩ := ih s ps _ out ys h
            refine ⟨r2, ?_⟩
            rw [hr2]
            simp [effectivePushes]
          | false =>
            rw [hcl, show applyQueueOp ⟨c :: rest, false, hclosed⟩ (QueueOp.push a) =
                ⟨(c :: rest) ++ [a], false, hclosed⟩ from by
              simp [applyQueueOp, AudioQueueHandle.push]] at h
            obtain ⟨r2, hr2⟩ := ih s ps _ out ys h
            refine ⟨r2, ?_⟩
            rw [hr2]
            simp [effectivePushes]
        | close =>
          rw [show applyQueueOp ⟨c :: rest, closed, hclosed⟩ QueueOp.close =
              ⟨c :: rest, true, hclosed⟩ from by
            simp [applyQueueOp, AudioQueueHandle.close]] at h
          obtain ⟨r2, hr2⟩ := ih s ps _ out ys h
          refine ⟨r2, ?_⟩
          rw [hr2]
          cases closed <;> simp [effectivePushes, effectivePushes_closed]
      | false :: s =>
        rw [audioLoopRun] at h; dsimp only at h
        obtain ⟨r2, hr2⟩ := ih s (p :: ps) _ (out ++ [c]) ys h
        refine ⟨r2, ?_⟩
        rw [hr2]
        simp
      | [] =>
        rw [audioLoopRun] at h; dsimp only at h
        obtain ⟨r2, hr2⟩ := ih [] (p :: ps) _ (out ++ [c]) ys h
        refine ⟨r2, ?_⟩
        rw [hr2]
        simp
    | [], prodOps =>
      match prodOps with
      | [] =>
        rw [audioLoopRun] at h; dsimp only at h
        cases hclosed with
        | true => simp at h
        | false =>
          simp only [Bool.false_eq_true, if_false,
            RelayOutcome.starved.injEq] at h
          subst h
          exact ⟨[], by simp [effectivePushes]⟩
      | p :: ps =>
        match sched with
        | true :: s =>
          rw [audioLoopRun] at h; dsimp only at h
          cases hclosed with
          | true => simp at h
          | false =>
            simp only [Bool.false_eq_true, if_false] at h
            cases p with
            | push a =>
              cases hcl : closed with
              | true =>
                rw [hcl, show applyQueueOp ⟨[], true, false⟩ (QueueOp.push a) =
                    ⟨[], true, false⟩ from by
                  simp [applyQueueOp, AudioQueueHandle.push]] at h
                obtain ⟨r2, hr2⟩ := ih s ps _ out ys h
                refine ⟨r2, ?_⟩
                rw [hr2]
                simp [effectivePushes]
              | false =>
                rw [hcl, show applyQueueOp ⟨[], false, false⟩ (QueueOp.push a) =
                    ⟨[a], false, false⟩ from by
                  simp [applyQueueOp, AudioQueueHandle.push]] at h
                obtain ⟨r2, hr2⟩ := ih s ps _ out ys h
                refine ⟨r2, ?_⟩
                rw [hr2]
                simp [effectivePushes]
            | close =>
              rw [show applyQueueOp ⟨[], closed, false⟩ QueueOp.close =
                  ⟨[], true, false⟩ from by
                simp [applyQueueOp, AudioQueueHandle.close]] at h
              obtain ⟨r2, hr2⟩ := ih s ps _ out ys h
              refine ⟨r2, ?_⟩
              rw [hr2]
              cases closed <;> simp [effectivePushes, effectivePushes_closed]
        | false :: s =>
          rw [audioLoopRun] at h; dsimp only at h
          cases hclosed with
          | true => simp at h
          | false =>
            simp only [Bool.false_eq_true, if_false,
              RelayOutcome.starved.injEq] at h
            subst h
            exact ⟨effectivePushes (p :: ps) closed, by simp⟩
        | [] =>
          rw [audioLoopRun] at h; dsimp only at h
          cases hclosed with
          | true => simp at h
          | false =>
            simp only [Bool.false_eq_true, if_false,
              RelayOutcome.starved.injEq] at h
            subst h
            exact ⟨effectivePushes (p :: ps) closed, by simp⟩

/-- One consumer run from a freshly created queue, with fuel for the
whole producer trace. -/
def runRelayConsumer {α : Type} (sched : List Bool) (ops : List (QueueOp α)) :
    RelayOutcome α :=
  audioLoopRun (2 * ops.length + 1) sched ops createAudioQueue []

theorem pushesThenClose_starved {α : Type} (chunks : List α) (sched : List Bool) :
    ∃ ys, runRelayConsumer sched (chunks.map QueueOp.push ++ [QueueOp.close]) =
        .starved ys ∧ ys = chunks.take ys.length := by
  cases hr : runRelayConsumer sched (chunks.map QueueOp.push ++ [QueueOp.close]) with
  | finished ys =>
    exact absurd hr (audioLoopRun_ne_finished _ sched _ createAudioQueue [] ys rfl)
  | outOfFuel =>
    refine absurd hr (audioLoopRun_ne_outOfFuel _ sched _ createAudioQueue [] ?_)
    simp [createAudioQueue]
  | starved ys =>
    obtain ⟨rest, hrest⟩ := audioLoopRun_starved_eq _ sched _ createAudioQueue [] ys hr
    refine ⟨ys, rfl, ?_⟩
    simp only [createAudioQueue, List.nil_append,
      effectivePushes_pushes_then_close] at hrest
    rw [← hrest, List.take_left]

/-- C2, evaluating the code at the failing inputs: the roundtrip fails
because of the `{ ...state }` spread in `createAudioQueue`.  (1) The pull
sequence can never terminate: the loop break reads the spread-copied
`closed` snapshot, which `close()` never sets.  (2) For every trace of N
pushes followed by `close()` and every interleaving, the consumer ends
permanently suspended, having yielded only a prefix of the chunks, in
order.  (3) With the producer scheduled first the whole buffer is relayed
but the sequence still never terminates.  (4) A consumer that suspends
before the pushes is never woken — `push` / `close` signal
`state.resolve`, which the consumer never set — so every chunk is
dropped. -/
theorem c2_audio_queue_close_starves :
    (∀ (fuel : Nat) (sched : List Bool) (prod : List (QueueOp String)) (ys : List String),
      audioLoopRun fuel sched prod (createAudioQueue : AudioQueueHandle String) [] ≠
        RelayOutcome.finished ys) ∧
    (∀ (chunks : List String) (sched : List Bool), ∃ ys,
      runRelayConsumer sched (chunks.map QueueOp.push ++ [QueueOp.close]) =
        RelayOutcome.starved ys ∧ ys = chunks.take ys.length) ∧
    runRelayConsumer [true, true, true]
      (["a", "b"].map QueueOp.push ++ [QueueOp.close]) =
      RelayOutcome.starved ["a", "b"] ∧
    runRelayConsumer [false]
      (["a", "b"].map QueueOp.push ++ [QueueOp.close]) =
      RelayOutcome.starved [] := by
  refine ⟨?_, ?_, rfl, rfl⟩
  · intro fuel sched prod ys
    exact audioLoopRun_ne_finished fuel sched prod createAudioQueue [] ys rfl
  · intro chunks sched
    exact pushesThenClose_starved chunks sched

/-! ## Nova Sonic input event protocol (envelope-style backend)

Embeds the event payloads produced by `createInitEvents` and the iterator
of `createInputStream`: each constructor is one JSON input event, with the
fields the ordering claims are about. -/

inductive NovaEvent where
  | sessionStart (maxTokens : Nat)
  | promptStart (promptName : String)
  | contentStartText (promptName contentName : String) (interactive : Bool) (role : String)
  | textInput (promptName contentName content : String)
  | contentEnd (promptName contentName : String)
  | contentStartAudio (promptName contentName : String) (interactive : Bool) (role : String)
  | audioInput (promptName contentName content : String)
  | promptEnd (promptName : String)
  | sessionEnd
deriving Repr, DecidableEq

def NovaEvent.isAudioInput : NovaEvent → Bool
  | .audioInput _ _ _ => true
  | _ => false

/-- Embeds `createInitEvents(systemPrompt, promptName, contentName)`: the
six init events, in generator order — sessionStart, promptStart, the
non-interactive SYSTEM text block (contentStart, textInput, contentEnd on
`contentName + "-system"`), then the interactive USER audio contentStart. -/
def createInitEvents (systemPrompt promptName contentName : String) : List NovaEvent :=
  [ .sessionStart 1024,
    .promptStart promptName,
    .contentStartText promptName (contentName ++ "-system") false "SYSTEM",
    .textInput promptName (contentName ++ "-system") systemPrompt,
    .contentEnd promptName (contentName ++ "-system"),
    .contentStartAudio promptName contentName true "USER" ]

/-- The event sequence the `createInputStream` iterator is written to
produce when its loop exits: the init events, one `audioInput` per yielded
chunk, then the close sequence `contentEnd -> promptEnd -> sessionEnd`. -/
def createInputStreamEvents (systemPrompt promptName contentName : String)
    (audioYield : List String) : List NovaEvent :=
  createInitEvents systemPrompt promptName contentName
    ++ audioYield.map (NovaEvent.audioInput promptName contentName)
    ++ [ .contentEnd promptName contentName, .promptEnd promptName, .sessionEnd ]

/-- The event stream one run of the `createInputStream` iterator actually
produces: the six init events first, then one `audioInput` per chunk the
audio loop yields; the close sequence — and stream termination, the
`Bool` — only if the loop exits via break.  `none` when the machine runs
out of fuel. -/
def createInputStreamRun (systemPrompt promptName contentName : String)
    (sched : List Bool) (prod : List (QueueOp String)) :
    Option (List NovaEvent × Bool) :=
  match runRelayConsumer sched prod with
  | .finished ys =>
    some (createInputStreamEvents systemPrompt promptName contentName ys, true)
  | .starved ys =>
    some (createInitEvents systemPrompt promptName contentName ++
      ys.map (NovaEvent.audioInput promptName contentName), false)
  | .outOfFuel => none

/-- C8, evaluating the code at the failing input: the init half of the
claim holds — the six init events, ending with the interactive audio
contentStart, precede every audioInput, and the audio segment is a prefix
of the relayed chunks in order — but the shutdown half fails: the close
sequence after the audio loop is dead code, because the loop break reads
the spread-copied `closed` snapshot that `close()` never sets.  After the
queue closes and drains, the stream emits no contentEnd / promptEnd /
sessionEnd and never terminates, for every trace and interleaving. -/
theorem c8_envelope_stream_ordering_bug (sp pn cn : String) :
    (∀ (chunks : List String) (sched : List Bool), ∃ ys,
      createInputStreamRun sp pn cn sched (chunks.map QueueOp.push ++ [QueueOp.close]) =
        some (createInitEvents sp pn cn ++ ys.map (NovaEvent.audioInput pn cn), false) ∧
      ys = chunks.take ys.length ∧
      (createInitEvents sp pn cn ++ ys.map (NovaEvent.audioInput pn cn)).take 6 =
        createInitEvents sp pn cn ∧
      (createInitEvents sp pn cn ++ ys.map (NovaEvent.audioInput pn cn)).drop 6 =
        ys.map (NovaEvent.audioInput pn cn) ∧
      NovaEvent.sessionEnd ∉
        createInitEvents sp pn cn ++ ys.map (NovaEvent.audioInput pn cn) ∧
      NovaEvent.promptEnd pn ∉
        createInitEvents sp pn cn ++ ys.map (NovaEvent.audioInput pn cn)) ∧
    (∀ (sched : List Bool) (prod : List (QueueOp String)) (st : List NovaEvent),
      createInputStreamRun sp pn cn sched prod ≠ some (st, true)) ∧
    createInputStreamRun sp pn cn [true, true]
      (["a"].map QueueOp.push ++ [QueueOp.close]) =
      some (createInitEvents sp pn cn ++ [NovaEvent.audioInput pn cn "a"], false) := by
  refine ⟨?_, ?_, rfl⟩
  · intro chunks sched
    obtain ⟨ys, hys, hpre⟩ := pushesThenClose_starved chunks sched
    refine ⟨ys, ?_, hpre, ?_, ?_, ?_, ?_⟩
    · simp [createInputStreamRun, hys]
    · rw [show (6 : Nat) = (createInitEvents sp pn cn).length by simp [createInitEvents]]
      rw [List.take_left]
    · rw [show (6 : Nat) = (createInitEvents sp pn cn).length by simp [createInitEvents]]
      rw [List.drop_left]
    · simp [createInitEvents]
    · simp [createInitEvents]
  · intro sched prod st h
    cases hr : runRelayConsumer sched prod with
    | finished ys =>
      exact absurd hr (audioLoopRun_ne_finished _ sched prod createAudioQueue [] ys rfl)
    | starved ys =>
      unfold createInputStreamRun at h
      rw [hr] at h
      simp at h
    | outOfFuel =>
      unfold createInputStreamRun at h
      rw [hr] at h
      simp at h

/-! ## Configuration

Environment values with the fallback defaults applied at each use site in
the source (`env.X ?? d`, `process.env.X || 'd'`).  Timestamps are
milliseconds as `Nat`; USD amounts are `Rat` (the source uses JS numbers;
none of the claims depends on float rounding). -/

structure Env where
  TRIAL_CHAT_MAX_SESSIONS : Nat := 1
  TRIAL_CHAT_MAX_MESSAGES : Nat := 5
  TRIAL_VOICE_MAX_SESSIONS : Nat := 1
  TRIAL_VOICE_MAX_SECONDS : Nat := 90
  FREE_ANONYMOUS_VOICE_MAX_SESSIONS : Nat := 10
  FREE_ANONYMOUS_VOICE_MAX_SECONDS : Nat := 600
  VOICE_WS_TOKEN_EXPIRY_SEC : Nat := 300
  VOICE_DAILY_MINUTES_PER_USER : Nat := 2
  VOICE_DAILY_BUDGET_USD : Rat := 20
  VOICE_MAX_SESSION_MINUTES : Nat := 5
  JWT_SECRET : Option String := none
  BETTER_AUTH_SECRET : Option String := none
deriving Repr, DecidableEq

def defaultEnv : Env := {}

/-- `VOICE_LIMITS.COST_PER_MINUTE_USD` (account tier, fixed 0.017). -/
def VOICE_COST_PER_MINUTE_USD : Rat := 17 / 1000

/-- `VOICE_COST_PER_MINUTE` in the trial service (fixed 0.017). -/
def TRIAL_VOICE_COST_PER_MINUTE : Rat := 17 / 1000

/-- `PAID_VOICE_COST_PER_MINUTE_USD` (fixed 0.3). -/
def PAID_VOICE_COST_PER_MINUTE_USD : Rat := 3 / 10

/-- `PAID_VOICE_TOKEN_EXPIRY_SEC` (fixed 300). -/
def PAID_VOICE_TOKEN_EXPIRY_SEC : Nat := 300

/-- The `SUPPORTED_LANGUAGE_CODES` set, identical in all voice modules. -/
def SUPPORTED_LANGUAGE_CODES : List String :=
  ["en", "es", "zh", "fr", "ar", "de", "ja", "pt", "ko", "hi", "ur", "bn"]

/-- Secret resolution from the token services:
`env.JWT_SECRET || env.BETTER_AUTH_SECRET || 'development-secret-min-32-characters-long'`. -/
def envSecret (e : Env) : String :=
  ((e.JWT_SECRET).orElse (fun _ => e.BETTER_AUTH_SECRET)).getD
    "development-secret-min-32-characters-long"

/-! ## Data model (relevant tables of the schema) -/

/-- Row of `trial_identity` (shared by the trial and free-anonymous
tiers). -/
structure TrialIdentityRow where
  trialIdHash : String
  chatSessionsUsed : Nat := 0
  chatMessagesUsed : Nat := 0
  voiceSessionsUsed : Nat := 0
  voiceSecondsUsed : Nat := 0
  exhaustedAt : Option Nat := none
  firstSeenIpHash : Option String := none
  createdAt : Nat := 0
  updatedAt : Nat := 0
deriving Repr, DecidableEq

/-- Row of `trial_voice_session` (used by both trial and free-anonymous
voice sessions). -/
structure TrialVoiceSessionRow where
  id : Nat
  trialIdHash : String
  languageCode : String
  startedAt : Nat := 0
  endedAt : Option Nat := none
  secondsUsed : Nat := 0
  costEstimateUsd : Rat := 0
deriving Repr, DecidableEq

/-- Row of `paid_voice_session`. -/
structure PaidVoiceSessionRow where
  id : Nat
  userId : String
  languageCode : String
  startedAt : Nat := 0
  endedAt : Option Nat := none
  secondsUsed : Nat := 0
  costEstimateUsd : Rat := 0
deriving Repr, DecidableEq

/-- Row of `voice_session` (account tier). -/
structure VoiceSessionRow where
  id : Nat
  userId : String
  languageCode : String
  startedAt : Nat := 0
  endedAt : Option Nat := none
  secondsUsed : Nat := 0
  costEstimateUsd : Rat := 0
deriving Repr, DecidableEq

/-- Row of `voice_usage_daily` (account tier quota ledger). -/
structure VoiceUsageDailyRow where
  userId : String
  usageDate : String
  secondsUsed : Nat := 0
  costEstimateUsd : Rat := 0
  sessionCount : Nat := 0
deriving Repr, DecidableEq

/-- Row of `trial_conversation_session` (trial chat). -/
structure TrialChatSessionRow where
  id : Nat
  trialIdHash : String
  languageCode : String
  createdAt : Nat := 0
deriving Repr, DecidableEq

/-- The database state the voice bridge touches.  `nextId` generates fresh
session ids (UUIDs in the source: ids never collide across tables). -/
structure Db where
  nextId : Nat := 0
  trialIdentities : List TrialIdentityRow := []
  trialVoiceSessions : List TrialVoiceSessionRow := []
  trialChatSessions : List TrialChatSessionRow := []
  paidVoiceSessions : List PaidVoiceSessionRow := []
  voiceSessions : List VoiceSessionRow := []
  voiceUsageDaily : List VoiceUsageDailyRow := []
deriving Repr, DecidableEq

/-! ## Trial / free-anonymous quota ledger (paid-ai-chat service) -/

def trialUsedMsg : String := "Trial used. Sign up to continue."

def findTrialIdentity (h : String) (db : Db) : Option TrialIdentityRow :=
  db.trialIdentities.find? (fun r => r.trialIdHash == h)

/-- Embeds `getOrCreateTrialIdentity`: return the existing row for the
hash, else insert a fresh one. -/
def getOrCreateTrialIdentity (h : String) (ipHash : Option String) (now : Nat)
    (db : Db) : TrialIdentityRow × Db :=
  match findTrialIdentity h db with
  | some r => (r, db)
  | none =>
    let created : TrialIdentityRow :=
      { trialIdHash := h, firstSeenIpHash := ipHash, createdAt := now, updatedAt := now }
    (created, { db with trialIdentities := db.trialIdentities ++ [created] })

/-- Embeds `isExhausted(identity)`: `identity.exhaustedAt != null`. -/
def isExhausted (i : TrialIdentityRow) : Bool :=
  i.exhaustedAt.isSome

def updateTrialIdentity (h : String) (f : TrialIdentityRow → TrialIdentityRow)
    (db : Db) : Db :=
  { db with trialIdentities :=
      db.trialIdentities.map (fun r => if r.trialIdHash == h then f r else r) }

/-- Embeds `markExhausted`: set `exhaustedAt` (and `updatedAt`). -/
def markExhausted (h : String) (now : Nat) (db : Db) : Db :=
  updateTrialIdentity h (fun r => { r with exhaustedAt := some now, updatedAt := now }) db

/-- Embeds `createTrialVoiceSession`: exhausted check first, then the
session-count / lifetime-seconds limits (which additionally mark the
identity exhausted before throwing), then the insert and counter bump.
The error string is returned instead of a thrown exception; the `Db` in
the result is the state after the call including writes made before a
throw. -/
def createTrialVoiceSession (e : Env) (h lang : String) (ipHash : Option String)
    (now : Nat) (db : Db) : Except String Nat × Db :=
  let p := getOrCreateTrialIdentity h ipHash now db
  let identity := p.1
  let db1 := p.2
  if isExhausted identity then
    (.error trialUsedMsg, db1)
  else if identity.voiceSessionsUsed ≥ e.TRIAL_VOICE_MAX_SESSIONS
      || identity.voiceSecondsUsed ≥ e.TRIAL_VOICE_MAX_SECONDS then
    (.error trialUsedMsg, markExhausted h now db1)
  else
    let sid := db1.nextId
    let session : TrialVoiceSessionRow :=
      { id := sid, trialIdHash := h, languageCode := lang, startedAt := now }
    let db2 := { db1 with
      nextId := db1.nextId + 1
      trialVoiceSessions := db1.trialVoiceSessions ++ [session] }
    let db3 := updateTrialIdentity h
      (fun r =>
        { r with voiceSessionsUsed := identity.voiceSessionsUsed + 1, updatedAt := now })
      db2
    (.ok sid, db3)

/-- Embeds `createFreeAnonymousVoiceSession`: same table, the
`FREE_ANONYMOUS_*` limits, no exhausted check and no exhausted marking. -/
def createFreeAnonymousVoiceSession (e : Env) (h lang : String)
    (ipHash : Option String) (now : Nat) (db : Db) : Except String Nat × Db :=
  let p := getOrCreateTrialIdentity h ipHash now db
  let identity := p.1
  let db1 := p.2
  if identity.voiceSessionsUsed ≥ e.FREE_ANONYMOUS_VOICE_MAX_SESSIONS
      || identity.voiceSecondsUsed ≥ e.FREE_ANONYMOUS_VOICE_MAX_SECONDS then
    (.error "Free anonymous voice limit reached. Sign up to continue.", db1)
  else
    let sid := db1.nextId
    let session : TrialVoiceSessionRow :=
      { id := sid, trialIdHash := h, languageCode := lang, startedAt := now }
    let db2 := { db1 with
      nextId := db1.nextId + 1
      trialVoiceSessions := db1.trialVoiceSessions ++ [session] }
    let db3 := updateTrialIdentity h
      (fun r =>
        { r with voiceSessionsUsed := identity.voiceSessionsUsed + 1, updatedAt := now })
      db2
    (.ok sid, db3)

/-- Embeds `createTrialChatSession`: exhausted check first, then the chat
session-count limit (which marks exhausted before throwing), then insert
and counter bump. -/
def createTrialChatSession (e : Env) (h lang : String) (ipHash : Option String)
    (now : Nat) (db : Db) : Except String Nat × Db :=
  let p := getOrCreateTrialIdentity h ipHash now db
  let identity := p.1
  let db1 := p.2
  if isExhausted identity then
    (.error trialUsedMsg, db1)
  else if identity.chatSessionsUsed ≥ e.TRIAL_CHAT_MAX_SESSIONS then
    (.error trialUsedMsg, markExhausted h now db1)
  else
    let sid := db1.nextId
    let session : TrialChatSessionRow :=
      { id := sid, trialIdHash := h, languageCode := lang, createdAt := now }
    let db2 := { db1 with
      nextId := db1.nextId + 1
      trialChatSessions := db1.trialChatSessions ++ [session] }
    let db3 := updateTrialIdentity h
      (fun r =>
        { r with chatSessionsUsed := identity.chatSessionsUsed + 1, updatedAt := now })
      db2
    (.ok sid, db3)

/-- Embeds `recordTrialVoiceSessionEnd`: clamp the accumulated identity
counter to `min(previousSeconds + secondsUsed, TRIAL_VOICE_MAX_SECONDS)`,
set `exhaustedAt` when the clamped total reaches the max, and write the
unclamped `secondsUsed` to the session row together with `endedAt` and the
cost estimate. -/
def recordTrialVoiceSessionEnd (e : Env) (h : String) (sid : Nat)
    (secondsUsed : Nat) (now : Nat) (db : Db) : Db :=
  let maxSeconds := e.TRIAL_VOICE_MAX_SECONDS
  let previousSeconds := ((findTrialIdentity h db).map (fun r => r.voiceSecondsUsed)).getD 0
  let totalAfter := min (previousSeconds + secondsUsed) maxSeconds
  let exhausted := totalAfter ≥ maxSeconds
  let cost := (secondsUsed : Rat) / 60 * TRIAL_VOICE_COST_PER_MINUTE
  let db1 := { db with trialVoiceSessions :=
    db.trialVoiceSessions.map (fun s =>
      if s.id == sid then
        { s with endedAt := some now, secondsUsed := secondsUsed, costEstimateUsd := cost }
      else s) }
  updateTrialIdentity h
    (fun r =>
      if exhausted then
        { r with voiceSecondsUsed := totalAfter, updatedAt := now, exhaustedAt := some now }
      else
        { r with voiceSecondsUsed := totalAfter, updatedAt := now }) db1

/-- Embeds `getTrialVoiceSessionById`: lookup by `(id, trialIdHash)` only.
Note that, unlike the paid and account lookups, the source places no
`isNull(endedAt)` condition in the `where` clause. -/
def getTrialVoiceSessionById (sid : Nat) (h : String) (db : Db) :
    Option TrialVoiceSessionRow :=
  db.trialVoiceSessions.find? (fun s => s.id == sid && s.trialIdHash == h)

/-! ## Paid voice service (paid-voice/service) -/

/-- Embeds `getPaidVoiceSessionByIdAndUser`: lookup by `(id, userId)` with
`isNull(endedAt)` — terminated paid sessions are not returned. -/
def getPaidVoiceSessionByIdAndUser (sid : Nat) (uid : String) (db : Db) :
    Option PaidVoiceSessionRow :=
  db.paidVoiceSessions.find? (fun s => s.id == sid && s.userId == uid && s.endedAt.isNone)

/-- Embeds `recordPaidVoiceSession`: set `endedAt`, `secondsUsed` and the
cost estimate on the session row matched by id alone. -/
def recordPaidVoiceSession (uid : String) (sid : Nat) (secondsUsed : Nat)
    (costEstimateUsd : Rat) (lang : String) (now : Nat) (db : Db) : Db :=
  { db with paidVoiceSessions :=
    db.paidVoiceSessions.map (fun s =>
      if s.id == sid then
        { s with endedAt := some now, secondsUsed := secondsUsed,
                 costEstimateUsd := costEstimateUsd }
      else s) }

/-! ## Account voice service (voice-chat service) -/

structure VoiceLimitCheckResult where
  allowed : Bool
  reason : Option String := none
deriving Repr, DecidableEq

/-- Embeds `getDailyVoiceSecondsUsed`. -/
def getDailyVoiceSecondsUsed (uid : String) (usageDate : String) (db : Db) : Nat :=
  (((db.voiceUsageDaily.find? (fun r => r.userId == uid && r.usageDate == usageDate)).map
    (fun r => r.secondsUsed)).getD 0)

/-- Embeds `getDailyVoiceCostTotal`: sum of the day's cost estimates over
all users. -/
def getDailyVoiceCostTotal (usageDate : String) (db : Db) : Rat :=
  ((db.voiceUsageDaily.filter (fun r => r.usageDate == usageDate)).map
    (fun r => r.costEstimateUsd)).sum

/-- Embeds `checkDailyVoiceMinutes`. -/
def checkDailyVoiceMinutes (e : Env) (uid : String) (additionalSeconds : Nat)
    (today : String) (db : Db) : VoiceLimitCheckResult :=
  let used := getDailyVoiceSecondsUsed uid today db
  let limitSeconds := e.VOICE_DAILY_MINUTES_PER_USER * 60
  if used + additionalSeconds > limitSeconds then
    { allowed := false,
      reason := some ("Daily voice limit reached (" ++
        toString e.VOICE_DAILY_MINUTES_PER_USER ++ " minutes).") }
  else { allowed := true }

/-- Embeds `checkDailyBudget`. -/
def checkDailyBudget (e : Env) (additionalCostUsd : Rat) (today : String)
    (db : Db) : VoiceLimitCheckResult :=
  if getDailyVoiceCostTotal today db + additionalCostUsd > e.VOICE_DAILY_BUDGET_USD then
    { allowed := false, reason := some "Daily voice budget exceeded. Try again tomorrow." }
  else { allowed := true }

/-- Embeds `getActiveVoiceSession`: an unterminated `voice_session` row of
the user, if any. -/
def getActiveVoiceSession (uid : String) (db : Db) : Option VoiceSessionRow :=
  db.voiceSessions.find? (fun s => s.userId == uid && s.endedAt.isNone)

/-- Embeds `recordVoiceSession`: upsert-and-add the `voice_usage_daily`
counters for `(userId, today)`, then set `endedAt` / `secondsUsed` / cost
on the `voice_session` row matched by id. -/
def recordVoiceSession (uid : String) (sid : Nat) (secondsUsed : Nat)
    (costEstimateUsd : Rat) (lang : String) (today : String) (now : Nat)
    (db : Db) : Db :=
  let usage :=
    if db.voiceUsageDaily.any (fun r => r.userId == uid && r.usageDate == today) then
      db.voiceUsageDaily.map (fun r =>
        if r.userId == uid && r.usageDate == today then
          { r with secondsUsed := r.secondsUsed + secondsUsed,
                   costEstimateUsd := r.costEstimateUsd + costEstimateUsd,
                   sessionCount := r.sessionCount + 1 }
        else r)
    else
      db.voiceUsageDaily ++
        [{ userId := uid, usageDate := today, secondsUsed := secondsUsed,
           costEstimateUsd := costEstimateUsd, sessionCount := 1 }]
  let sessions := db.voiceSessions.map (fun s =>
    if s.id == sid then
      { s with endedAt := some now, secondsUsed := secondsUsed,
               costEstimateUsd := costEstimateUsd }
    else s)
  { db with voiceUsageDaily := usage, voiceSessions := sessions }

/-! ## Session tokens

A signed JWT is modelled as its claims plus the secret it was signed with;
verification checks the signature (secret equality), then the `exp` claim
against the current time, exactly as `jwtVerify` does, and never throws
(the source wraps it in try/catch returning null). -/

structure SessionTokenClaims where
  sub : String
  sessionId : Nat
  typ : Option String := none
  iat : Nat := 0
  exp : Nat := 0
  secret : String
deriving Repr, DecidableEq

structure TrialVoiceTokenPayload where
  trialIdHash : String
  sessionId : Nat
deriving Repr, DecidableEq

structure PaidVoiceSessionTokenPayload where
  sub : String
  sessionId : Nat
deriving Repr, DecidableEq

/-- Embeds `createTrialVoiceToken`: subject is the trial hash, claims
carry the session id and `type: 'trial'`, expiry
`VOICE_WS_TOKEN_EXPIRY_SEC` (default 300 s). -/
def createTrialVoiceToken (e : Env) (trialIdHash : String) (sessionId : Nat)
    (now : Nat) : SessionTokenClaims :=
  { sub := trialIdHash, sessionId := sessionId, typ := some "trial", iat := now,
    exp := now + e.VOICE_WS_TOKEN_EXPIRY_SEC, secret := envSecret e }

/-- Embeds `validateTrialVoiceToken`: verify signature and expiry, then
require `type == 'trial'`. -/
def validateTrialVoiceToken (e : Env) (tok : SessionTokenClaims) (now : Nat) :
    Option TrialVoiceTokenPayload :=
  if tok.secret == envSecret e && decide (now < tok.exp) then
    if tok.typ == some "trial" then some ⟨tok.sub, tok.sessionId⟩ else none
  else none

/-- Embeds `createPaidVoiceSessionToken`: subject is the user id, expiry
`PAID_VOICE_TOKEN_EXPIRY_SEC`; note no `type` claim is set. -/
def createPaidVoiceSessionToken (e : Env) (userId : String) (sessionId : Nat)
    (now : Nat) : SessionTokenClaims :=
  { sub := userId, sessionId := sessionId, typ := none, iat := now,
    exp := now + PAID_VOICE_TOKEN_EXPIRY_SEC, secret := envSecret e }

/-- Embeds `validatePaidVoiceSessionToken`: verify signature and expiry
and return `{sub, sessionId}`.  Note the source checks no `type` claim, so
a trial token with the same secret also validates here. -/
def validatePaidVoiceSessionToken (e : Env) (tok : SessionTokenClaims) (now : Nat) :
    Option PaidVoiceSessionTokenPayload :=
  if tok.secret == envSecret e && decide (now < tok.exp) then
    some ⟨tok.sub, tok.sessionId⟩
  else none

/-- Modelled from the spec: `createSessionToken` of the account-tier
voice-chat service is referenced by the voice module but its
implementation file is not among the provided sources.  Per spec 4.2 the
Session Token Service issues a signed, time-boxed credential binding the
identity to one session id. -/
def createSessionToken (e : Env) (userId : String) (sessionId : Nat)
    (now : Nat) : SessionTokenClaims :=
  { sub := userId, sessionId := sessionId, typ := none, iat := now,
    exp := now + e.VOICE_WS_TOKEN_EXPIRY_SEC, secret := envSecret e }

/-- Modelled from the spec: `validateSessionToken` of the account-tier
voice-chat service (implementation not among the provided sources).  Per
spec 4.2 validation fails closed on malformed signature or expiry and
returns the identity and session id. -/
def validateSessionToken (e : Env) (tok : SessionTokenClaims) (now : Nat) :
    Option PaidVoiceSessionTokenPayload :=
  if tok.secret == envSecret e && decide (now < tok.exp) then
    some ⟨tok.sub, tok.sessionId⟩
  else none

/-- Modelled from the spec: `getVoiceSessionByIdAndUser` of the
account-tier voice-chat service (implementation not among the provided
sources).  Per spec 4.6 the session is looked up by `(id, identity)` and
must be unterminated. -/
def getVoiceSessionByIdAndUser (sid : Nat) (uid : String) (db : Db) :
    Option VoiceSessionRow :=
  db.voiceSessions.find? (fun s => s.id == sid && s.userId == uid && s.endedAt.isNone)

/-! ## JSON model for the inbound message handler

The ws message handlers call `JSON.parse` on a text frame and read
`parsed.audio`.  `JsValue` is the result of a successful parse; numbers
keep only what the handler can observe of them (truthiness). -/

inductive JsValue where
  | null
  | bool (b : Bool)
  | num (isZero : Bool)
  | str (s : String)
  | arr (elems : List JsValue)
  | obj (fields : List (String × JsValue))
deriving Repr

def skipWs : List Char → List Char
  | c :: rest =>
    if c = ' ' ∨ c = '\t' ∨ c = '\n' ∨ c = '\r' then skipWs rest else c :: rest
  | [] => []

def hexDigitVal? (c : Char) : Option Nat :=
  if '0' ≤ c ∧ c ≤ '9' then some (c.toNat - 48)
  else if 'a' ≤ c ∧ c ≤ 'f' then some (c.toNat - 87)
  else if 'A' ≤ c ∧ c ≤ 'F' then some (c.toNat - 55)
  else none

/-- Body of a JSON string literal after the opening quote; `acc` holds the
decoded characters in reverse.  Mirrors `JSON.parse` strictness: raw
control characters and unknown escapes are rejected. -/
def parseJsonStringBody : Nat → List Char → List Char → Option (String × List Char)
  | 0, _, _ => none
  | fuel+1, cs, acc =>
    match cs with
    | [] => none
    | '"' :: rest => some (String.mk acc.reverse, rest)
    | '\\' :: esc :: rest =>
      match esc with
      | '"' => parseJsonStringBody fuel rest ('"' :: acc)
      | '\\' => parseJsonStringBody fuel rest ('\\' :: acc)
      | '/' => parseJsonStringBody fuel rest ('/' :: acc)
      | 'b' => parseJsonStringBody fuel rest ('\x08' :: acc)
      | 'f' => parseJsonStringBody fuel rest ('\x0c' :: acc)
      | 'n' => parseJsonStringBody fuel rest ('\n' :: acc)
      | 'r' => parseJsonStringBody fuel rest ('\x0d' :: acc)
      | 't' => parseJsonStringBody fuel rest ('\t' :: acc)
      | 'u' =>
        match rest with
        | h1 :: h2 :: h3 :: h4 :: rest2 =>
          match hexDigitVal? h1, hexDigitVal? h2, hexDigitVal? h3, hexDigitVal? h4 with
          | some a, some b, some c, some d =>
            parseJsonStringBody fuel rest2
              (Char.ofNat (a * 4096 + b * 256 + c * 16 + d) :: acc)
          | _, _, _, _ => none
        | _ => none
      | _ => none
    | [_] => none
    | c :: rest => if c.toNat < 32 then none else parseJsonStringBody fuel rest (c :: acc)

def spanDigits : List Char → List Char × List Char
  | c :: rest =>
    if c.isDigit then
      let p := spanDigits rest
      (c :: p.1, p.2)
    else ([], c :: rest)
  | [] => ([], [])

def parseIntDigits : List Char → Option (List Char × List Char)
  | '0' :: rest => some (['0'], rest)
  | c :: rest =>
    if '1' ≤ c ∧ c ≤ '9' then
      let p := spanDigits rest
      some (c :: p.1, p.2)
    else none
  | [] => none

def parseFracDigits : List Char → Option (List Char × List Char)
  | '.' :: rest =>
    let p := spanDigits rest
    if p.1 = [] then none else some (p.1, p.2)
  | cs => some ([], cs)

def parseExpPart : List Char → Option (List Char)
  | c :: rest =>
    if c = 'e' ∨ c = 'E' then
      let rest2 := match rest with
        | s :: r => if s = '+' ∨ s = '-' then r else s :: r
        | [] => []
      let p := spanDigits rest2
      if p.1 = [] then none else some p.2
    else some (c :: rest)
  | [] => some []

/-- A JSON number per the RFC grammar; only the zeroness of the mantissa
is retained (all the handler observes is truthiness). -/
def parseJsonNumber (cs : List Char) : Option (JsValue × List Char) :=
  let body := fun (cs1 : List Char) =>
    match parseIntDigits cs1 with
    | none => none
    | some (intDs, r1) =>
      match parseFracDigits r1 with
      | none => none
      | some (fracDs, r2) =>
        match parseExpPart r2 with
        | none => none
        | some r3 =>
          some (JsValue.num ((intDs ++ fracDs).all (fun d => d = '0')), r3)
  match cs with
  | '-' :: r => body r
  | _ => body cs

def parseListElems (pv : List Char → Option (JsValue × List Char)) :
    Nat → List Char → Option (List JsValue × List Char)
  | 0, _ => none
  | fuel+1, cs =>
    match pv cs with
    | none => none
    | some (v, rest) =>
      match skipWs rest with
      | ',' :: r =>
        (parseListElems pv fuel (skipWs r)).map (fun p => (v :: p.1, p.2))
      | ']' :: r => some ([v], r)
      | _ => none

def parseObjMembers (pv : List Char → Option (JsValue × List Char)) :
    Nat → List Char → Option (List (String × JsValue) × List Char)
  | 0, _ => none
  | fuel+1, cs =>
    match skipWs cs with
    | '"' :: r =>
      match parseJsonStringBody (r.length + 1) r [] with
      | none => none
      | some (key, r1) =>
        match skipWs r1 with
        | ':' :: r2 =>
          match pv (skipWs r2) with
          | none => none
          | some (v, r3) =>
            match skipWs r3 with
            | ',' :: r4 =>
              (parseObjMembers pv fuel r4).map (fun p => ((key, v) :: p.1, p.2))
            | '\x7d' :: r4 => some ([(key, v)], r4)
            | _ => none
        | _ => none
    | _ => none

def parseJsonValue : Nat → List Char → Option (JsValue × List Char)
  | 0, _ => none
  | fuel+1, cs =>
    match skipWs cs with
    | 'n' :: 'u' :: 'l' :: 'l' :: r => some (.null, r)
    | 't' :: 'r' :: 'u' :: 'e' :: r => some (.bool true, r)
    | 'f' :: 'a' :: 'l' :: 's' :: 'e' :: r => some (.bool false, r)
    | '"' :: r => (parseJsonStringBody (r.length + 1) r []).map (fun p => (JsValue.str p.1, p.2))
    | '[' :: r =>
      match skipWs r with
      | ']' :: r2 => some (.arr [], r2)
      | r2 => (parseListElems (parseJsonValue fuel) fuel r2).map
          (fun p => (JsValue.arr p.1, p.2))
    | '\x7b' :: r =>
      match skipWs r with
      | '\x7d' :: r2 => some (.obj [], r2)
      | r2 => (parseObjMembers (parseJsonValue fuel) fuel r2).map
          (fun p => (JsValue.obj p.1, p.2))
    | cs2 => parseJsonNumber cs2

/-- `JSON.parse` model: parse one value, allow surrounding whitespace,
reject trailing garbage. -/
def parseJson (s : String) : Option JsValue :=
  match parseJsonValue (s.length + 1) s.data with
  | some (v, rest) => if skipWs rest = [] then some v else none
  | none => none

/-- JS property read `parsed.audio`: throws on `null` (modelled as
`.error`), returns the field on an object (last duplicate wins, as in
`JSON.parse`), is `undefined` (`none`) on every other JSON value. -/
def jsAudioField : JsValue → Except Unit (Option JsValue)
  | .null => .error ()
  | .obj fields =>
    .ok (((fields.reverse).find? (fun kv => kv.1 == "audio")).map (fun kv => kv.2))
  | _ => .ok none

/-- JS truthiness of a JSON value (`if (base64)`). -/
def jsTruthy : JsValue → Bool
  | .null => false
  | .bool b => b
  | .num isZero => !isZero
  | .str s => !(s == "")
  | .arr _ => true
  | .obj _ => true

/-- Embeds the shared ws message handler body for a text frame (identical
in the account, trial and paid stream endpoints): try `JSON.parse`; on
success take `parsed.audio ?? null`, on a parse or property-access throw
fall back to the whole message as raw base64; push only a truthy result.
Returns the value pushed to the relay queue, or `none` when nothing is
pushed. -/
def handleVoiceTextMessage (msg : String) : Option JsValue :=
  match parseJson msg with
  | none => some (.str msg)
  | some parsed =>
    match jsAudioField parsed with
    | .error _ => some (.str msg)
    | .ok none => none
    | .ok (some v) => if jsTruthy v then some v else none

/-- An inbound ws frame: a text frame, or anything failing
`typeof message === 'string'`. -/
inductive WsMessage where
  | text (s : String)
  | binary
deriving Repr

/-- The full message handler: non-string frames are ignored. -/
def handleVoiceMessage : WsMessage → Option JsValue
  | .text s => handleVoiceTextMessage s
  | .binary => none

/-! ## Session-create endpoints -/

/-- Outcome of a session-create route, by HTTP status. -/
inductive CreateSessionResult where
  | badRequest (message : String)
  | conflict (message : String)
  | resourceExhausted (message : String)
  | created (sessionId : Nat) (token : SessionTokenClaims)
deriving Repr, DecidableEq

def CreateSessionResult.isCreated : CreateSessionResult → Bool
  | .created _ _ => true
  | _ => false

/-- Embeds the authenticated branch of `POST /api/voice/session` (account
tier): language check, then active-session conflict check (409, nothing
inserted), then daily budget, then daily minutes, then the insert and
token issuance. -/
def accountCreateVoiceSession (e : Env) (uid lang : String) (today : String)
    (now : Nat) (db : Db) : CreateSessionResult × Db :=
  if !(SUPPORTED_LANGUAGE_CODES.contains lang) then
    (.badRequest "Unsupported language_code", db)
  else
    match getActiveVoiceSession uid db with
    | some _ => (.conflict "You already have an active voice session", db)
    | none =>
      let maxSessionSeconds := e.VOICE_MAX_SESSION_MINUTES * 60
      let estimatedCostMax := (maxSessionSeconds : Rat) / 60 * VOICE_COST_PER_MINUTE_USD
      let budgetCheck := checkDailyBudget e estimatedCostMax today db
      if !budgetCheck.allowed then
        (.resourceExhausted (budgetCheck.reason.getD ""), db)
      else
        let minutesCheck := checkDailyVoiceMinutes e uid maxSessionSeconds today db
        if !minutesCheck.allowed then
          (.resourceExhausted (minutesCheck.reason.getD ""), db)
        else
          let sid := db.nextId
          let session : VoiceSessionRow :=
            { id := sid, userId := uid, languageCode := lang, startedAt := now }
          let db1 := { db with
            nextId := db.nextId + 1
            voiceSessions := db.voiceSessions ++ [session] }
          (.created sid (createSessionToken e uid sid now), db1)

/-- Embeds `POST /api/paid-voice/session`: language check, then an
unconditional insert and token issuance — the source performs no
active-session or budget check on this route. -/
def paidCreateVoiceSession (e : Env) (uid lang : String) (now : Nat)
    (db : Db) : CreateSessionResult × Db :=
  if !(SUPPORTED_LANGUAGE_CODES.contains lang) then
    (.badRequest "Unsupported language_code", db)
  else
    let sid := db.nextId
    let session : PaidVoiceSessionRow :=
      { id := sid, userId := uid, languageCode := lang, startedAt := now }
    let db1 := { db with
      nextId := db.nextId + 1
      paidVoiceSessions := db.paidVoiceSessions ++ [session] }
    (.created sid (createPaidVoiceSessionToken e uid sid now), db1)

/-! ## WebSocket stream lifecycle -/

/-- Result of a ws `open` handler: the transport is closed with a policy
code, or the connection proceeds with the per-connection state the handler
stores on `ws.data`. -/
inductive WsOpenResult (ι : Type) where
  | rejected (code : Nat) (reason : String)
  | opened (info : ι)
deriving Repr, DecidableEq

def WsOpenResult.isOpened {ι : Type} : WsOpenResult ι → Bool
  | .opened _ => true
  | _ => false

/-- The `sessionInfo` stored by the account stream `open` handler. -/
structure SessionInfoAcct where
  userId : String
  sessionId : Nat
  languageCode : String
  startedAt : Nat
deriving Repr, DecidableEq

/-- The `sessionInfo` stored by the trial stream `open` handler. -/
structure SessionInfoTrial where
  trialIdHash : String
  sessionId : Nat
  languageCode : String
  startedAt : Nat
deriving Repr, DecidableEq

/-- Embeds the `open` handler of ws `/api/voice/stream`: missing token,
invalid/expired token, and failed session lookup each close with 1008; on
success the handler stores `sessionInfo`. -/
def voiceStreamOpen (e : Env) (token : Option SessionTokenClaims) (now : Nat)
    (db : Db) : WsOpenResult SessionInfoAcct :=
  match token with
  | none => .rejected 1008 "Missing token"
  | some tok =>
    match validateSessionToken e tok now with
    | none => .rejected 1008 "Invalid or expired token"
    | some payload =>
      match getVoiceSessionByIdAndUser payload.sessionId payload.sub db with
      | none => .rejected 1008 "Session not found or already ended"
      | some session =>
        .opened ⟨payload.sub, session.id, session.languageCode, now⟩

/-- Embeds the `open` handler of ws `/api/trial/voice/stream` (used by
both trial and free-anonymous sessions). -/
def trialVoiceStreamOpen (e : Env) (token : Option SessionTokenClaims) (now : Nat)
    (db : Db) : WsOpenResult SessionInfoTrial :=
  match token with
  | none => .rejected 1008 "Missing token"
  | some tok =>
    match validateTrialVoiceToken e tok now with
    | none => .rejected 1008 "Invalid or expired token"
    | some payload =>
      match getTrialVoiceSessionById payload.sessionId payload.trialIdHash db with
      | none => .rejected 1008 "Session not found or already ended"
      | some session =>
        .opened ⟨payload.trialIdHash, session.id, session.languageCode, now⟩

/-- Embeds the `open` handler of ws `/api/paid-voice/stream`. -/
def paidVoiceStreamOpen (e : Env) (token : Option SessionTokenClaims) (now : Nat)
    (db : Db) : WsOpenResult SessionInfoAcct :=
  match token with
  | none => .rejected 1008 "Missing token"
  | some tok =>
    match validatePaidVoiceSessionToken e tok now with
    | none => .rejected 1008 "Invalid or expired token"
    | some payload =>
      match getPaidVoiceSessionByIdAndUser payload.sessionId payload.sub db with
      | none => .rejected 1008 "Session not found or already ended"
      | some session =>
        .opened ⟨payload.sub, session.id, session.languageCode, now⟩

/-- Embeds `Math.round((Date.now() - startedAt) / 1000)` for the
nonnegative elapsed milliseconds of a connection. -/
def roundSeconds (elapsedMs : Nat) : Nat :=
  (elapsedMs + 500) / 1000

/-- One usage-recording invocation, as observed by the quota ledger. -/
structure RecordCall where
  identity : String
  sessionId : Nat
  secondsUsed : Nat
deriving Repr, DecidableEq

/-- Embeds the `close` handler of ws `/api/voice/stream`: close the relay
queue; if `sessionInfo` was stored, compute the elapsed seconds and call
`recordVoiceSession` exactly once.  Returns the new database and the list
of recording calls made. -/
def voiceStreamClose (info : Option SessionInfoAcct) (closeNow : Nat)
    (today : String) (db : Db) : Db × List RecordCall :=
  match info with
  | none => (db, [])
  | some si =>
    let secondsUsed := roundSeconds (closeNow - si.startedAt)
    let costEstimateUsd := (secondsUsed : Rat) / 60 * VOICE_COST_PER_MINUTE_USD
    (recordVoiceSession si.userId si.sessionId secondsUsed costEstimateUsd
      si.languageCode today closeNow db,
     [⟨si.userId, si.sessionId, secondsUsed⟩])

/-- Embeds the `close` handler of ws `/api/trial/voice/stream`: close the
relay queue; if `sessionInfo` was stored, call `recordTrialVoiceSessionEnd`
exactly once (for sessions of either the trial or the free-anonymous
create path). -/
def trialVoiceStreamClose (e : Env) (info : Option SessionInfoTrial)
    (closeNow : Nat) (db : Db) : Db × List RecordCall :=
  match info with
  | none => (db, [])
  | some si =>
    let secondsUsed := roundSeconds (closeNow - si.startedAt)
    (recordTrialVoiceSessionEnd e si.trialIdHash si.sessionId secondsUsed closeNow db,
     [⟨si.trialIdHash, si.sessionId, secondsUsed⟩])

/-- Embeds the `close` handler of ws `/api/paid-voice/stream`. -/
def paidVoiceStreamClose (info : Option SessionInfoAcct) (closeNow : Nat)
    (db : Db) : Db × List RecordCall :=
  match info with
  | none => (db, [])
  | some si =>
    let secondsUsed := roundSeconds (closeNow - si.startedAt)
    let costEstimateUsd := (secondsUsed : Rat) / 60 * PAID_VOICE_COST_PER_MINUTE_USD
    (recordPaidVoiceSession si.userId si.sessionId secondsUsed costEstimateUsd
      si.languageCode closeNow db,
     [⟨si.userId, si.sessionId, secondsUsed⟩])

/-- One full account voice connection: `open`, then the message handler on
every inbound frame (pushing truthy audio payloads to the relay queue),
then `close`.  Nothing but the close handler touches the database or the
ledger; a rejected open stores no `sessionInfo`, so the close handler does
nothing. -/
def runVoiceConnection (e : Env) (token : Option SessionTokenClaims)
    (openNow : Nat) (msgs : List WsMessage) (closeNow : Nat) (today : String)
    (db : Db) : Db × List RecordCall :=
  match voiceStreamOpen e token openNow db with
  | .rejected _ _ => (db, [])
  | .opened si =>
    let q : AudioQueueHandle JsValue := msgs.foldl
      (fun q m =>
        match handleVoiceMessage m with
        | some v => q.push v
        | none => q)
      createAudioQueue
    let _ := q.close
    voiceStreamClose (some si) closeNow today db

/-- One full trial / free-anonymous voice connection. -/
def runTrialVoiceConnection (e : Env) (token : Option SessionTokenClaims)
    (openNow : Nat) (msgs : List WsMessage) (closeNow : Nat)
    (db : Db) : Db × List RecordCall :=
  match trialVoiceStreamOpen e token openNow db with
  | .rejected _ _ => (db, [])
  | .opened si =>
    let q : AudioQueueHandle JsValue := msgs.foldl
      (fun q m =>
        match handleVoiceMessage m with
        | some v => q.push v
        | none => q)
      createAudioQueue
    let _ := q.close
    trialVoiceStreamClose e (some si) closeNow db

/-! ## Database operations as a step relation

`DbOp` covers the modelled mutating entry points of the voice bridge; it
is used to state invariants over every reachable database state. -/

inductive DbOp where
  | trialVoiceCreate (h lang : String) (ip : Option String) (now : Nat)
  | freeAnonVoiceCreate (h lang : String) (ip : Option String) (now : Nat)
  | trialChatCreate (h lang : String) (ip : Option String) (now : Nat)
  | accountVoiceCreate (uid lang today : String) (now : Nat)
  | paidVoiceCreate (uid lang : String) (now : Nat)
  | trialVoiceEnd (h : String) (sid : Nat) (secs : Nat) (now : Nat)
  | accountVoiceEnd (uid : String) (sid : Nat) (secs : Nat) (cost : Rat)
      (lang today : String) (now : Nat)
  | paidVoiceEnd (uid : String) (sid : Nat) (secs : Nat) (cost : Rat)
      (lang : String) (now : Nat)
deriving Repr

def applyDbOp (e : Env) (db : Db) : DbOp → Db
  | .trialVoiceCreate h lang ip now => (createTrialVoiceSession e h lang ip now db).2
  | .freeAnonVoiceCreate h lang ip now =>
      (createFreeAnonymousVoiceSession e h lang ip now db).2
  | .trialChatCreate h lang ip now => (createTrialChatSession e h lang ip now db).2
  | .accountVoiceCreate uid lang today now =>
      (accountCreateVoiceSession e uid lang today now db).2
  | .paidVoiceCreate uid lang now => (paidCreateVoiceSession e uid lang now db).2
  | .trialVoiceEnd h sid secs now => recordTrialVoiceSessionEnd e h sid secs now db
  | .accountVoiceEnd uid sid secs cost lang today now =>
      recordVoiceSession uid sid secs cost lang today now db
  | .paidVoiceEnd uid sid secs cost lang now =>
      recordPaidVoiceSession uid sid secs cost lang now db

def applyDbOps (e : Env) (ops : List DbOp) (db : Db) : Db :=
  ops.foldl (applyDbOp e) db

/-! ## Claim C10 — inbound message handling -/

/-- C10, counterexample: the text frame `"null"` parses as JSON (to JSON
null, which has no `audio` field), yet the handler pushes the whole string
as raw base64 instead of ignoring it: reading `.audio` of `null` throws,
and the catch block treats the message as raw audio. -/
theorem c10_counterexample :
    parseJson "null" = some JsValue.null ∧
    jsAudioField JsValue.null = .error () ∧
    handleVoiceTextMessage "null" = some (.str "null") :=
  ⟨rfl, rfl, rfl⟩

/-- C10, amended: a text frame that does not parse as JSON is pushed
unchanged as raw base64; a frame parsing to a JSON value other than null
with no `audio` field is silently ignored; but a frame parsing to JSON
null is also pushed unchanged (the property access throws into the raw
fallback); non-string frames are ignored. -/
theorem c10_message_handler_amended (s : String) :
    (parseJson s = none → handleVoiceTextMessage s = some (.str s)) ∧
    (parseJson s = some .null → handleVoiceTextMessage s = some (.str s)) ∧
    (∀ fields, parseJson s = some (.obj fields) →
      (fields.reverse).find? (fun kv => kv.1 == "audio") = none →
      handleVoiceTextMessage s = none) ∧
    (∀ b, parseJson s = some (.bool b) → handleVoiceTextMessage s = none) ∧
    (∀ z, parseJson s = some (.num z) → handleVoiceTextMessage s = none) ∧
    (∀ t, parseJson s = some (.str t) → handleVoiceTextMessage s = none) ∧
    (∀ l, parseJson s = some (.arr l) → handleVoiceTextMessage s = none) ∧
    handleVoiceMessage .binary = none := by
  refine ⟨?_, ?_, ?_, ?_, ?_, ?_, ?_, rfl⟩
  · intro h; simp [handleVoiceTextMessage, h]
  · intro h; simp [handleVoiceTextMessage, h, jsAudioField]
  · intro fields h hf
    simp [handleVoiceTextMessage, h, jsAudioField, hf]
  · intro b h; simp [handleVoiceTextMessage, h, jsAudioField]
  · intro z h; simp [handleVoiceTextMessage, h, jsAudioField]
  · intro t h; simp [handleVoiceTextMessage, h, jsAudioField]
  · intro l h; simp [handleVoiceTextMessage, h, jsAudioField]

/-- Witness for the amended C10 theorem at concrete frames. -/
theorem c10_message_handler_amended_witness :
    handleVoiceTextMessage "AAAA" = some (.str "AAAA") ∧
    handleVoiceTextMessage "\x7b\"foo\":1\x7d" = none := by
  constructor
  · exact (c10_message_handler_amended "AAAA").1 rfl
  · exact (c10_message_handler_amended "\x7b\"foo\":1\x7d").2.2.1
      [("foo", JsValue.num false)] rfl rfl

/-! ## Claim C3 — terminated sessions at the connect-time lookup -/

/-- C3: a trial voice session whose `endedAt` is set is still returned by
`getTrialVoiceSessionById` — the trial `where` clause has no
`isNull(endedAt)` — so an unexpired trial token for a terminated session
passes the connect-time lookup and the ws open proceeds, while the paid
lookup (which does filter on `endedAt`) returns none for an equally
terminated paid session. -/
theorem c3_terminated_trial_session_accepted :
    (getTrialVoiceSessionById 0 "h1"
      { nextId := 1,
        trialVoiceSessions := [{ id := 0, trialIdHash := "h1", languageCode := "en",
                                 startedAt := 0, endedAt := some 5000,
                                 secondsUsed := 5 }] }).isSome = true ∧
    (trialVoiceStreamOpen defaultEnv
      (some (createTrialVoiceToken defaultEnv "h1" 0 0)) 1
      { nextId := 1,
        trialVoiceSessions := [{ id := 0, trialIdHash := "h1", languageCode := "en",
                                 startedAt := 0, endedAt := some 5000,
                                 secondsUsed := 5 }] }).isOpened = true ∧
    getPaidVoiceSessionByIdAndUser 0 "u1"
      { nextId := 1,
        paidVoiceSessions := [{ id := 0, userId := "u1", languageCode := "en",
                                startedAt := 0, endedAt := some 5000 }] } = none :=
  ⟨rfl, rfl, rfl⟩

/-! ## Claim C4 — single active session per account identity -/

/-- C4, counterexample: `POST /api/paid-voice/session` performs no
active-session check: with an unterminated paid session already present
for the user, the create succeeds and a second unterminated row exists
afterwards. -/
theorem c4_counterexample :
    (paidCreateVoiceSession defaultEnv "u1" "en" 7
      { nextId := 1,
        paidVoiceSessions := [{ id := 0, userId := "u1", languageCode := "en" }] }).1.isCreated
      = true ∧
    ((paidCreateVoiceSession defaultEnv "u1" "en" 7
      { nextId := 1,
        paidVoiceSessions := [{ id := 0, userId := "u1", languageCode := "en" }] }).2.paidVoiceSessions.filter
        (fun s => s.userId == "u1" && s.endedAt.isNone)).length = 2 :=
  ⟨rfl, rfl⟩

/-- C4, amended: the account-tier create (`POST /api/voice/session`,
authenticated branch) rejects with 409 Conflict and inserts nothing while
the identity has an unterminated session; the paid-voice create performs
no such check and unconditionally inserts a row. -/
theorem c4_account_conflict (e : Env) (uid lang today : String) (now : Nat)
    (db : Db) (s : VoiceSessionRow)
    (hlang : SUPPORTED_LANGUAGE_CODES.contains lang = true)
    (hactive : getActiveVoiceSession uid db = some s) :
    accountCreateVoiceSession e uid lang today now db =
      (.conflict "You already have an active voice session", db) ∧
    ∀ (db2 : Db),
      ((paidCreateVoiceSession e uid lang now db2).2.paidVoiceSessions).length =
        db2.paidVoiceSessions.length + 1 := by
  have hmem : lang ∈ SUPPORTED_LANGUAGE_CODES := by
    simpa using hlang
  constructor
  · simp [accountCreateVoiceSession, hmem, hactive]
  · intro db2
    simp [paidCreateVoiceSession, hmem]

/-- Witness for the amended C4 theorem at a concrete database. -/
theorem c4_account_conflict_witness :
    accountCreateVoiceSession defaultEnv "u1" "en" "2026-01-01" 7
      { nextId := 1,
        voiceSessions := [{ id := 0, userId := "u1", languageCode := "en" }] } =
      (.conflict "You already have an active voice session",
        { nextId := 1,
          voiceSessions := [{ id := 0, userId := "u1", languageCode := "en" }] }) :=
  (c4_account_conflict defaultEnv "u1" "en" "2026-01-01" 7
    { nextId := 1, voiceSessions := [{ id := 0, userId := "u1", languageCode := "en" }] }
    { id := 0, userId := "u1", languageCode := "en" } rfl rfl).1

/-! ## Claim C5 — seconds recorded at finalization vs. the session bound -/

/-- C5, counterexample: nothing clamps the finalize-time seconds and no
idle timeout closes the connection: a connection open for 301000 ms under
the default 5-minute bound records 301 seconds on the ledger call and the
session row — exceeding `MAX_SESSION_MINUTES * 60 = 300`. -/
theorem c5_counterexample :
    (runVoiceConnection defaultEnv
      (some (createSessionToken defaultEnv "u" 0 0)) 0 [] 301000 "2026-01-01"
      { nextId := 1,
        voiceSessions := [{ id := 0, userId := "u", languageCode := "en" }] }).2 =
      [⟨"u", 0, 301⟩] ∧
    ((runVoiceConnection defaultEnv
      (some (createSessionToken defaultEnv "u" 0 0)) 0 [] 301000 "2026-01-01"
      { nextId := 1,
        voiceSessions := [{ id := 0, userId := "u", languageCode := "en" }] }).1.voiceSessions.map
        (fun s => s.secondsUsed)) = [301] ∧
    301 > defaultEnv.VOICE_MAX_SESSION_MINUTES * 60 := by
  refine ⟨rfl, rfl, by decide⟩

/-- C5, amended: the seconds written at finalization are exactly
`Math.round(elapsedMs / 1000)` with no clamping; they stay within the
tier's max-session bound only when the connection itself stayed open at
most that long. -/
theorem c5_seconds_bound (e : Env) (si : SessionInfoAcct) (closeNow : Nat)
    (today : String) (db : Db)
    (helapsed : closeNow - si.startedAt ≤ e.VOICE_MAX_SESSION_MINUTES * 60 * 1000) :
    ∀ c ∈ (voiceStreamClose (some si) closeNow today db).2,
      c.secondsUsed = roundSeconds (closeNow - si.startedAt) ∧
      c.secondsUsed ≤ e.VOICE_MAX_SESSION_MINUTES * 60 := by
  intro c hc
  simp [voiceStreamClose] at hc
  subst hc
  refine ⟨rfl, ?_⟩
  simp only [roundSeconds]
  omega

/-- Witness for the amended C5 theorem at a concrete close: a connection
open 299000 ms records 299 s, within the default 300-second bound. -/
theorem c5_seconds_bound_witness :
    (⟨"u", 0, 299⟩ : RecordCall).secondsUsed = roundSeconds (299000 - 0) ∧
    (⟨"u", 0, 299⟩ : RecordCall).secondsUsed ≤ defaultEnv.VOICE_MAX_SESSION_MINUTES * 60 :=
  c5_seconds_bound defaultEnv ⟨"u", 0, "en", 0⟩ 299000 "2026-01-01"
    { nextId := 1, voiceSessions := [{ id := 0, userId := "u", languageCode := "en" }] }
    (by decide) ⟨"u", 0, 299⟩ (by decide)

/-! ## Claim C9 — trial finalization clamps the identity counter -/

theorem recordTrialEnd_clamps (e : Env) (h : String) (sid secs now : Nat) (db : Db) :
    ∀ r ∈ (recordTrialVoiceSessionEnd e h sid secs now db).trialIdentities,
      r.trialIdHash = h → r.voiceSecondsUsed ≤ e.TRIAL_VOICE_MAX_SECONDS := by
  intro r hr hrh
  unfold recordTrialVoiceSessionEnd updateTrialIdentity at hr
  simp only [List.mem_map] at hr
  obtain ⟨r0, hr0, hreq⟩ := hr
  by_cases hb : (r0.trialIdHash == h) = true
  · rw [if_pos hb] at hreq
    by_cases hex :
        min ((((findTrialIdentity h db).map (fun r => r.voiceSecondsUsed)).getD 0) + secs)
          e.TRIAL_VOICE_MAX_SECONDS ≥ e.TRIAL_VOICE_MAX_SECONDS
    · rw [if_pos hex] at hreq
      rw [← hreq]
      exact min_le_right _ _
    · rw [if_neg hex] at hreq
      rw [← hreq]
      exact min_le_right _ _
  · rw [if_neg hb] at hreq
    rw [← hreq] at hrh
    exact absurd (by simp [hrh]) hb

/-- C9: `recordTrialVoiceSessionEnd` clamps the accumulated
`voiceSecondsUsed` of the identity to `TRIAL_VOICE_MAX_SECONDS`, the
exhausted flag is written exactly when the clamped total reaches the max,
and a session created under the free-anonymous limits is finalized through
the same clamped path by the trial stream close handler. -/
theorem c9_trial_finalize_clamped (e : Env) (h : String) (sid secs now : Nat)
    (db : Db) :
    (∀ r ∈ (recordTrialVoiceSessionEnd e h sid secs now db).trialIdentities,
      r.trialIdHash = h → r.voiceSecondsUsed ≤ e.TRIAL_VOICE_MAX_SECONDS) ∧
    (min ((((findTrialIdentity h db).map (fun r => r.voiceSecondsUsed)).getD 0) + secs)
        e.TRIAL_VOICE_MAX_SECONDS ≥ e.TRIAL_VOICE_MAX_SECONDS ↔
     min ((((findTrialIdentity h db).map (fun r => r.voiceSecondsUsed)).getD 0) + secs)
        e.TRIAL_VOICE_MAX_SECONDS = e.TRIAL_VOICE_MAX_SECONDS) ∧
    (∀ (lang : String) (ipHash : Option String) (createNow sid2 : Nat) (db1 : Db)
        (si : SessionInfoTrial) (closeNow : Nat),
      createFreeAnonymousVoiceSession e h lang ipHash createNow db = (.ok sid2, db1) →
      si.trialIdHash = h →
      ∀ r ∈ ((trialVoiceStreamClose e (some si) closeNow db1).1).trialIdentities,
        r.trialIdHash = h → r.voiceSecondsUsed ≤ e.TRIAL_VOICE_MAX_SECONDS) := by
  refine ⟨recordTrialEnd_clamps e h sid secs now db, ?_, ?_⟩
  · constructor
    · intro hge
      exact le_antisymm (min_le_right _ _) hge
    · intro heq
      omega
  · intro lang ipHash createNow sid2 db1 si closeNow _ hsi r hr hrh
    simp only [trialVoiceStreamClose] at hr
    rw [hsi] at hr
    exact recordTrialEnd_clamps e h si.sessionId
      (roundSeconds (closeNow - si.startedAt)) closeNow db1 r hr hrh

/-- Witness for the C9 theorem at a concrete finalization: a session open
for 200 s leaves the fresh identity's counter clamped at 90 with the
exhausted flag set. -/
theorem c9_trial_finalize_clamped_witness :
    ({ trialIdHash := "h9", voiceSecondsUsed := 90, exhaustedAt := some 200000,
       updatedAt := 200000 } : TrialIdentityRow).voiceSecondsUsed ≤
      defaultEnv.TRIAL_VOICE_MAX_SECONDS :=
  (c9_trial_finalize_clamped defaultEnv "h9" 0 200 200000
    { nextId := 1,
      trialIdentities := [{ trialIdHash := "h9" }],
      trialVoiceSessions := [{ id := 0, trialIdHash := "h9",
                               languageCode := "en" }] }).1
    { trialIdHash := "h9", voiceSecondsUsed := 90, exhaustedAt := some 200000,
      updatedAt := 200000 }
    (by decide) rfl

/-! ## Claim C1 — usage recorded exactly once per opened connection -/

/-- C1: after a successful open (token validated, session found), the
close handler makes the usage-recording call exactly once — for any number
of inbound frames, including none — the call is made with
`Math.round(elapsed/1000)` seconds, which is `0` on an immediate
disconnect, and the session row is still finalized (`endedAt` set) in that
case; likewise for the trial stream and `recordTrialVoiceSessionEnd`. -/
theorem c1_usage_recorded_exactly_once (e : Env) (tok : SessionTokenClaims)
    (openNow closeNow : Nat) (today : String) (db : Db) (si : SessionInfoAcct)
    (hopen : voiceStreamOpen e (some tok) openNow db = .opened si) :
    (∀ msgs : List WsMessage,
      (runVoiceConnection e (some tok) openNow msgs closeNow today db).2 =
        [⟨si.userId, si.sessionId, roundSeconds (closeNow - si.startedAt)⟩]) ∧
    (closeNow = si.startedAt → ∀ msgs : List WsMessage,
      (runVoiceConnection e (some tok) openNow msgs closeNow today db).2 =
        [⟨si.userId, si.sessionId, 0⟩]) ∧
    (∀ msgs : List WsMessage,
      ∀ s ∈ (runVoiceConnection e (some tok) openNow msgs closeNow today db).1.voiceSessions,
        s.id = si.sessionId → s.endedAt = some closeNow) ∧
    (∀ (tok2 : SessionTokenClaims) (db2 : Db) (si2 : SessionInfoTrial),
      trialVoiceStreamOpen e (some tok2) openNow db2 = .opened si2 →
      ∀ msgs : List WsMessage,
        (runTrialVoiceConnection e (some tok2) openNow msgs closeNow db2).2 =
          [⟨si2.trialIdHash, si2.sessionId, roundSeconds (closeNow - si2.startedAt)⟩]) := by
  refine ⟨?_, ?_, ?_, ?_⟩
  · intro msgs
    simp [runVoiceConnection, hopen, voiceStreamClose]
  · intro hz msgs
    simp [runVoiceConnection, hopen, voiceStreamClose, hz, roundSeconds]
  · intro msgs s hs hsid
    simp only [runVoiceConnection, hopen, voiceStreamClose, recordVoiceSession,
      List.mem_map] at hs
    obtain ⟨s0, hs0, hseq⟩ := hs
    by_cases hb : (s0.id == si.sessionId) = true
    · rw [if_pos hb] at hseq
      rw [← hseq]
    · rw [if_neg hb] at hseq
      rw [← hseq] at hsid
      exact absurd (by simp [hsid]) hb
  · intro tok2 db2 si2 hopen2 msgs
    simp [runTrialVoiceConnection, hopen2, trialVoiceStreamClose]

/-- Witness for C1: a connection that opens successfully and disconnects
immediately with no frames records exactly one call with zero seconds. -/
theorem c1_usage_recorded_exactly_once_witness :
    (runVoiceConnection defaultEnv
      (some (createSessionToken defaultEnv "u" 0 0)) 0 [] 0 "2026-01-01"
      { nextId := 1,
        voiceSessions := [{ id := 0, userId := "u", languageCode := "en" }] }).2 =
      [⟨"u", 0, 0⟩] :=
  (c1_usage_recorded_exactly_once defaultEnv
    (createSessionToken defaultEnv "u" 0 0) 0 0 "2026-01-01"
    { nextId := 1, voiceSessions := [{ id := 0, userId := "u", languageCode := "en" }] }
    ⟨"u", 0, "en", 0⟩ rfl).2.1 rfl []

/-! ## Claim C6 — exhausted-first denial and stickiness -/

/-- The trial identity for `hq` exists and its exhausted flag is set. -/
def ExhaustedForever (hq : String) (db : Db) : Prop :=
  ∃ j, findTrialIdentity hq db = some j ∧ j.exhaustedAt ≠ none

theorem findTrialIdentity_update (hq h2 : String)
    (f : TrialIdentityRow → TrialIdentityRow)
    (hf : ∀ r, (f r).trialIdHash = r.trialIdHash) (db : Db) :
    findTrialIdentity hq (updateTrialIdentity h2 f db) =
      (findTrialIdentity hq db).map (fun r => if r.trialIdHash == h2 then f r else r) := by
  unfold findTrialIdentity updateTrialIdentity
  rw [List.find?_map]
  have hcomp : ((fun r : TrialIdentityRow => r.trialIdHash == hq) ∘
      (fun r => if r.trialIdHash == h2 then f r else r)) =
      (fun r : TrialIdentityRow => r.trialIdHash == hq) := by
    funext r
    by_cases hb : r.trialIdHash = h2 <;> simp [hb, hf]
  rw [hcomp]

theorem exhaustedForever_update (hq h2 : String)
    (f : TrialIdentityRow → TrialIdentityRow) (db : Db)
    (hf : ∀ r, (f r).trialIdHash = r.trialIdHash)
    (hfex : ∀ r, r.exhaustedAt ≠ none → (f r).exhaustedAt ≠ none) :
    ExhaustedForever hq db → ExhaustedForever hq (updateTrialIdentity h2 f db) := by
  rintro ⟨j, hj, hex⟩
  rw [ExhaustedForever, findTrialIdentity_update hq h2 f hf, hj]
  by_cases hb : j.trialIdHash = h2
  · exact ⟨f j, by simp [hb], hfex j hex⟩
  · exact ⟨j, by simp [hb], hex⟩

theorem exhaustedForever_of_eq_identities (hq : String) (db db2 : Db)
    (hsame : db2.trialIdentities = db.trialIdentities) :
    ExhaustedForever hq db → ExhaustedForever hq db2 := by
  rintro ⟨j, hj, hex⟩
  exact ⟨j, by rw [findTrialIdentity, hsame]; exact hj, hex⟩

theorem exhaustedForever_getOrCreate (hq h2 : String) (ip : Option String)
    (now : Nat) (db : Db) :
    ExhaustedForever hq db →
    ExhaustedForever hq (getOrCreateTrialIdentity h2 ip now db).2 := by
  rintro ⟨j, hj, hex⟩
  unfold getOrCreateTrialIdentity
  cases hfind : findTrialIdentity h2 db with
  | some r => exact ⟨j, hj, hex⟩
  | none =>
    refine ⟨j, ?_, hex⟩
    rw [findTrialIdentity] at hj ⊢
    simp only [List.find?_append, hj]
    rfl

theorem exhaustedForever_trialVoiceCreate (e : Env) (h2 lang : String)
    (ip : Option String) (now : Nat) (db : Db) (hq : String) :
    ExhaustedForever hq db →
    ExhaustedForever hq (createTrialVoiceSession e h2 lang ip now db).2 := by
  intro hQ
  have h1 := exhaustedForever_getOrCreate hq h2 ip now db hQ
  unfold createTrialVoiceSession
  dsimp only
  split
  · exact h1
  · split
    · exact exhaustedForever_update hq h2 _ _ (fun r => rfl) (fun r _ => by simp) h1
    · exact exhaustedForever_update hq h2 _ _ (fun r => rfl) (fun r hr => hr)
        (exhaustedForever_of_eq_identities hq _ _ rfl h1)

theorem exhaustedForever_freeAnonVoiceCreate (e : Env) (h2 lang : String)
    (ip : Option String) (now : Nat) (db : Db) (hq : String) :
    ExhaustedForever hq db →
    ExhaustedForever hq (createFreeAnonymousVoiceSession e h2 lang ip now db).2 := by
  intro hQ
  have h1 := exhaustedForever_getOrCreate hq h2 ip now db hQ
  unfold createFreeAnonymousVoiceSession
  dsimp only
  split
  · exact h1
  · exact exhaustedForever_update hq h2 _ _ (fun r => rfl) (fun r hr => hr)
      (exhaustedForever_of_eq_identities hq _ _ rfl h1)

theorem exhaustedForever_trialChatCreate (e : Env) (h2 lang : String)
    (ip : Option String) (now : Nat) (db : Db) (hq : String) :
    ExhaustedForever hq db →
    ExhaustedForever hq (createTrialChatSession e h2 lang ip now db).2 := by
  intro hQ
  have h1 := exhaustedForever_getOrCreate hq h2 ip now db hQ
  unfold createTrialChatSession
  dsimp only
  split
  · exact h1
  · split
    · exact exhaustedForever_update hq h2 _ _ (fun r => rfl) (fun r _ => by simp) h1
    · exact exhaustedForever_update hq h2 _ _ (fun r => rfl) (fun r hr => hr)
        (exhaustedForever_of_eq_identities hq _ _ rfl h1)

theorem exhaustedForever_recordTrialEnd (e : Env) (h2 : String) (sid secs now : Nat)
    (db : Db) (hq : String) :
    ExhaustedForever hq db →
    ExhaustedForever hq (recordTrialVoiceSessionEnd e h2 sid secs now db) := by
  intro hQ
  unfold recordTrialVoiceSessionEnd
  dsimp only
  refine exhaustedForever_update hq h2 _ _ ?_ ?_
      (exhaustedForever_of_eq_identities hq _ _ rfl hQ)
  · intro r
    split <;> rfl
  · intro r hr
    split
    · simp
    · exact hr

theorem exhaustedForever_step (e : Env) (hq : String) (op : DbOp) (db : Db) :
    ExhaustedForever hq db → ExhaustedForever hq (applyDbOp e db op) := by
  intro hQ
  cases op with
  | trialVoiceCreate h2 lang ip now =>
    exact exhaustedForever_trialVoiceCreate e h2 lang ip now db hq hQ
  | freeAnonVoiceCreate h2 lang ip now =>
    exact exhaustedForever_freeAnonVoiceCreate e h2 lang ip now db hq hQ
  | trialChatCreate h2 lang ip now =>
    exact exhaustedForever_trialChatCreate e h2 lang ip now db hq hQ
  | accountVoiceCreate uid lang today now =>
    unfold applyDbOp accountCreateVoiceSession
    dsimp only
    split
    · exact hQ
    · split
      · exact hQ
      · split
        · exact hQ
        · split
          · exact hQ
          · exact exhaustedForever_of_eq_identities hq _ _ rfl hQ
  | paidVoiceCreate uid lang now =>
    unfold applyDbOp paidCreateVoiceSession
    dsimp only
    split
    · exact hQ
    · exact exhaustedForever_of_eq_identities hq _ _ rfl hQ
  | trialVoiceEnd h2 sid secs now =>
    exact exhaustedForever_recordTrialEnd e h2 sid secs now db hq hQ
  | accountVoiceEnd uid sid secs cost lang today now =>
    exact exhaustedForever_of_eq_identities hq _ _ rfl hQ
  | paidVoiceEnd uid sid secs cost lang now =>
    exact exhaustedForever_of_eq_identities hq _ _ rfl hQ

theorem exhaustedForever_ops (e : Env) (hq : String) (ops : List DbOp) :
    ∀ db : Db, ExhaustedForever hq db →
      ExhaustedForever hq (applyDbOps e ops db) := by
  induction ops with
  | nil => intro db hQ; exact hQ
  | cons op rest ih =>
    intro db hQ
    exact ih (applyDbOp e db op) (exhaustedForever_step e hq op db hQ)

theorem createTrialVoice_denied_of_exhausted (e : Env) (h lang : String)
    (ip : Option String) (now : Nat) (db : Db) :
    ExhaustedForever h db →
    (createTrialVoiceSession e h lang ip now db).1 = .error trialUsedMsg := by
  rintro ⟨j, hj, hex⟩
  unfold createTrialVoiceSession getOrCreateTrialIdentity
  rw [hj]
  have : isExhausted j = true := by
    rw [isExhausted]
    cases hjx : j.exhaustedAt with
    | none => exact absurd hjx hex
    | some t => rfl
  simp [this]

theorem createTrialChat_denied_of_exhausted (e : Env) (h lang : String)
    (ip : Option String) (now : Nat) (db : Db) :
    ExhaustedForever h db →
    (createTrialChatSession e h lang ip now db).1 = .error trialUsedMsg := by
  rintro ⟨j, hj, hex⟩
  unfold createTrialChatSession getOrCreateTrialIdentity
  rw [hj]
  have : isExhausted j = true := by
    rw [isExhausted]
    cases hjx : j.exhaustedAt with
    | none => exact absurd hjx hex
    | some t => rfl
  simp [this]

/-- C6: an identity with `exhaustedAt` set is denied by
`createTrialVoiceSession` and `createTrialChatSession` with the exhausted
reason and the database unchanged — whatever its session/seconds counters
are, so even when those limits would also fail — and the flag is sticky:
after any sequence of modelled operations the two creates still deny with
the same reason. -/
theorem c6_exhausted_denied_first (e : Env) (h lang : String) (ip : Option String)
    (now t : Nat) (db : Db) (i : TrialIdentityRow)
    (hfind : findTrialIdentity h db = some i)
    (hex : i.exhaustedAt = some t) :
    createTrialVoiceSession e h lang ip now db = (.error trialUsedMsg, db) ∧
    createTrialChatSession e h lang ip now db = (.error trialUsedMsg, db) ∧
    ∀ (ops : List DbOp) (lang2 : String) (ip2 : Option String) (now2 : Nat),
      (createTrialVoiceSession e h lang2 ip2 now2 (applyDbOps e ops db)).1 =
        .error trialUsedMsg ∧
      (createTrialChatSession e h lang2 ip2 now2 (applyDbOps e ops db)).1 =
        .error trialUsedMsg := by
  have hQ : ExhaustedForever h db := ⟨i, hfind, by simp [hex]⟩
  have hisex : isExhausted i = true := by simp [isExhausted, hex]
  refine ⟨?_, ?_, ?_⟩
  · unfold createTrialVoiceSession getOrCreateTrialIdentity
    rw [hfind]
    simp [hisex]
  · unfold createTrialChatSession getOrCreateTrialIdentity
    rw [hfind]
    simp [hisex]
  · intro ops lang2 ip2 now2
    have hQ2 := exhaustedForever_ops e h ops db hQ
    exact ⟨createTrialVoice_denied_of_exhausted e h lang2 ip2 now2 _ hQ2,
           createTrialChat_denied_of_exhausted e h lang2 ip2 now2 _ hQ2⟩

/-- Witness for C6 at a concrete exhausted identity whose counters would
also fail the session-count limit. -/
theorem c6_exhausted_denied_first_witness :
    createTrialVoiceSession defaultEnv "h6" "en" none 9
      { nextId := 0,
        trialIdentities := [{ trialIdHash := "h6", chatSessionsUsed := 5,
                              voiceSessionsUsed := 5, voiceSecondsUsed := 500,
                              exhaustedAt := some 3 }] } =
      (.error trialUsedMsg,
        { nextId := 0,
          trialIdentities := [{ trialIdHash := "h6", chatSessionsUsed := 5,
                                voiceSessionsUsed := 5, voiceSecondsUsed := 500,
                                exhaustedAt := some 3 }] }) :=
  (c6_exhausted_denied_first defaultEnv "h6" "en" none 9 3
    { nextId := 0,
      trialIdentities := [{ trialIdHash := "h6", chatSessionsUsed := 5,
                            voiceSessionsUsed := 5, voiceSecondsUsed := 500,
                            exhaustedAt := some 3 }] }
    { trialIdHash := "h6", chatSessionsUsed := 5, voiceSessionsUsed := 5,
      voiceSecondsUsed := 500, exhaustedAt := some 3 }
    rfl rfl).1

/-! ## Claim C7 — trial tokens replayed against the paid lookup -/

/-- Well-formedness: every paid session id was generated before the
current fresh id (true of every state the creates produce, as UUIDs never
collide). -/
def PaidIdsBounded (db : Db) : Prop :=
  ∀ s ∈ db.paidVoiceSessions, s.id < db.nextId

/-- `sid` is fresh for the paid table and below the id generator. -/
def PaidIdFree (sid : Nat) (db : Db) : Prop :=
  sid < db.nextId ∧ ∀ s ∈ db.paidVoiceSessions, s.id ≠ sid

theorem paidIdFree_of (sid : Nat) (db db2 : Db)
    (hn : db.nextId ≤ db2.nextId)
    (hp : db2.paidVoiceSessions = db.paidVoiceSessions) :
    PaidIdFree sid db → PaidIdFree sid db2 := by
  rintro ⟨h1, h2⟩
  exact ⟨lt_of_lt_of_le h1 hn, by rw [hp]; exact h2⟩

theorem getOrCreate_nextId (h2 : String) (ip : Option String) (now : Nat) (db : Db) :
    (getOrCreateTrialIdentity h2 ip now db).2.nextId = db.nextId := by
  unfold getOrCreateTrialIdentity
  cases hfind : findTrialIdentity h2 db <;> simp [hfind]

theorem getOrCreate_paid (h2 : String) (ip : Option String) (now : Nat) (db : Db) :
    (getOrCreateTrialIdentity h2 ip now db).2.paidVoiceSessions =
      db.paidVoiceSessions := by
  unfold getOrCreateTrialIdentity
  cases hfind : findTrialIdentity h2 db <;> simp [hfind]

theorem paidIdFree_step (e : Env) (sid : Nat) (op : DbOp) (db : Db) :
    PaidIdFree sid db → PaidIdFree sid (applyDbOp e db op) := by
  intro hP
  cases op with
  | trialVoiceCreate h2 lang ip now =>
    unfold applyDbOp createTrialVoiceSession
    dsimp only
    split
    · exact paidIdFree_of sid db _ (by rw [getOrCreate_nextId]) (getOrCreate_paid _ _ _ _) hP
    · split
      · exact paidIdFree_of sid db _
          (by simp [markExhausted, updateTrialIdentity, getOrCreate_nextId])
          (by simp [markExhausted, updateTrialIdentity, getOrCreate_paid]) hP
      · exact paidIdFree_of sid db _
          (by simp [updateTrialIdentity, getOrCreate_nextId])
          (by simp [updateTrialIdentity, getOrCreate_paid]) hP
  | freeAnonVoiceCreate h2 lang ip now =>
    unfold applyDbOp createFreeAnonymousVoiceSession
    dsimp only
    split
    · exact paidIdFree_of sid db _ (by rw [getOrCreate_nextId]) (getOrCreate_paid _ _ _ _) hP
    · exact paidIdFree_of sid db _
        (by simp [updateTrialIdentity, getOrCreate_nextId])
        (by simp [updateTrialIdentity, getOrCreate_paid]) hP
  | trialChatCreate h2 lang ip now =>
    unfold applyDbOp createTrialChatSession
    dsimp only
    split
    · exact paidIdFree_of sid db _ (by rw [getOrCreate_nextId]) (getOrCreate_paid _ _ _ _) hP
    · split
      · exact paidIdFree_of sid db _
          (by simp [markExhausted, updateTrialIdentity, getOrCreate_nextId])
          (by simp [markExhausted, updateTrialIdentity, getOrCreate_paid]) hP
      · exact paidIdFree_of sid db _
          (by simp [updateTrialIdentity, getOrCreate_nextId])
          (by simp [updateTrialIdentity, getOrCreate_paid]) hP
  | accountVoiceCreate uid lang today now =>
    unfold applyDbOp accountCreateVoiceSession
    dsimp only
    split
    · exact hP
    · split
      · exact hP
      · split
        · exact hP
        · split
          · exact hP
          · exact paidIdFree_of sid db _ (Nat.le_succ _) rfl hP
  | paidVoiceCreate uid lang now =>
    unfold applyDbOp paidCreateVoiceSession
    dsimp only
    split
    · exact hP
    · obtain ⟨h1, h2⟩ := hP
      refine ⟨Nat.lt_succ_of_lt h1, ?_⟩
      intro s hs
      simp only [List.mem_append, List.mem_singleton] at hs
      rcases hs with hs | hs
      · exact h2 s hs
      · rw [hs]
        intro hcontra
        simp only at hcontra
        omega
  | trialVoiceEnd h2 sid2 secs now =>
    exact paidIdFree_of sid db _
      (by simp [applyDbOp, recordTrialVoiceSessionEnd, updateTrialIdentity])
      (by simp [applyDbOp, recordTrialVoiceSessionEnd, updateTrialIdentity]) hP
  | accountVoiceEnd uid sid2 secs cost lang today now =>
    exact paidIdFree_of sid db _
      (by simp [applyDbOp, recordVoiceSession])
      (by simp [applyDbOp, recordVoiceSession]) hP
  | paidVoiceEnd uid sid2 secs cost lang now =>
    obtain ⟨h1, h2⟩ := hP
    refine ⟨h1, ?_⟩
    intro s hs
    simp only [applyDbOp, recordPaidVoiceSession, List.mem_map] at hs
    obtain ⟨s0, hs0, hseq⟩ := hs
    have hid : s.id = s0.id := by
      rw [← hseq]
      split <;> rfl
    rw [hid]
    exact h2 s0 hs0

theorem paidIdFree_ops (e : Env) (sid : Nat) (ops : List DbOp) :
    ∀ db : Db, PaidIdFree sid db → PaidIdFree sid (applyDbOps e ops db) := by
  induction ops with
  | nil => intro db hP; exact hP
  | cons op rest ih =>
    intro db hP
    exact ih (applyDbOp e db op) (paidIdFree_step e sid op db hP)

theorem trialCreate_fresh (e : Env) (h lang : String) (ip : Option String)
    (now : Nat) (db : Db) (sid : Nat) (db1 : Db)
    (hb : PaidIdsBounded db)
    (hc : createTrialVoiceSession e h lang ip now db = (.ok sid, db1)) :
    PaidIdFree sid db1 := by
  unfold createTrialVoiceSession at hc
  dsimp only at hc
  split at hc
  · simp at hc
  · split at hc
    · simp at hc
    · have hsid := congrArg Prod.fst hc
      have hdb := congrArg Prod.snd hc
      simp only [Except.ok.injEq] at hsid
      rw [getOrCreate_nextId] at hsid
      simp only at hdb
      subst hdb
      refine ⟨?_, ?_⟩
      · simp only [updateTrialIdentity, getOrCreate_nextId]
        omega
      · intro s hs
        have hs2 : s ∈ db.paidVoiceSessions := by
          simpa [updateTrialIdentity, getOrCreate_paid] using hs
        have hlt := hb s hs2
        omega

theorem getPaid_none_of_free (sid : Nat) (uid : String) (db : Db)
    (hfree : ∀ s ∈ db.paidVoiceSessions, s.id ≠ sid) :
    getPaidVoiceSessionByIdAndUser sid uid db = none := by
  unfold getPaidVoiceSessionByIdAndUser
  rw [List.find?_eq_none]
  intro s hs
  simp only [Bool.and_eq_true, beq_iff_eq, not_and]
  intro hid
  exact absurd hid.1 (hfree s hs)

/-- C7: a session id issued by the trial voice create is never found by
the paid session lookup — the tables are disjoint — so a trial token
replayed against the paid connect path is refused: after any sequence of
modelled operations, `getPaidVoiceSessionByIdAndUser` returns none for it
and the paid stream `open` handler (validatePaidVoiceSessionToken followed
by the lookup) never opens. -/
theorem c7_trial_token_refused_by_paid_lookup (e : Env) (h lang : String)
    (ip : Option String) (now tokNow : Nat) (db db1 : Db) (sid : Nat)
    (hb : PaidIdsBounded db)
    (hc : createTrialVoiceSession e h lang ip now db = (.ok sid, db1)) :
    ∀ (ops : List DbOp) (now2 : Nat) (uid : String),
      getPaidVoiceSessionByIdAndUser sid uid (applyDbOps e ops db1) = none ∧
      (paidVoiceStreamOpen e (some (createTrialVoiceToken e h sid tokNow)) now2
        (applyDbOps e ops db1)).isOpened = false := by
  intro ops now2 uid
  have hP := paidIdFree_ops e sid ops db1 (trialCreate_fresh e h lang ip now db sid db1 hb hc)
  have hnone : ∀ u, getPaidVoiceSessionByIdAndUser sid u (applyDbOps e ops db1) = none :=
    fun u => getPaid_none_of_free sid u _ hP.2
  refine ⟨hnone uid, ?_⟩
  unfold paidVoiceStreamOpen
  cases hv : validatePaidVoiceSessionToken e (createTrialVoiceToken e h sid tokNow) now2 with
  | none =>
    simp only [hv]
    rfl
  | some p =>
    have hp2 : p.sessionId = sid ∧ p.sub = h := by
      unfold validatePaidVoiceSessionToken at hv
      split at hv
      · simp only [Option.some.injEq] at hv
        rw [← hv]
        exact ⟨rfl, rfl⟩
      · exact absurd hv (by simp)
    simp only [hv]
    rw [hp2.1, hnone p.sub]
    rfl

/-- Witness for C7: create a trial session on an empty database, replay
its token against the paid lookup with no further operations. -/
theorem c7_trial_token_refused_by_paid_lookup_witness :
    getPaidVoiceSessionByIdAndUser 0 "x"
      (applyDbOps defaultEnv []
        (createTrialVoiceSession defaultEnv "h7" "en" none 0 {}).2) = none :=
  (c7_trial_token_refused_by_paid_lookup defaultEnv "h7" "en" none 0 0 {}
    (createTrialVoiceSession defaultEnv "h7" "en" none 0 {}).2 0
    (by intro s hs; simp at hs)
    (by rfl) [] 1 "x").1

end VoiceBridge
